import Mathlib

/-!
Verification development for the template-app-agent-xcom posting bot.

The definitions below are a shallow embedding of the bot's core
post-lifecycle code: the SQLite row model of `shared/database/schema.ts`
(the `posts`, `bot_stats` and `post_logs` tables together with the
`update_bot_stats_on_post_used` trigger), the operations of
`services/post-manager.ts` and `bot.ts`, and the local content generator of
`services/generator/post-generator.ts`.  Machine integers are modelled as
`Nat`/`Int`, SQLite `REAL` columns and JavaScript number weights as `ℚ`,
`CURRENT_TIMESTAMP` as an explicitly passed `Nat` clock, and the
`node:crypto` SHA-256 digest as an executable Lean implementation of
FIPS 180-4 SHA-256 over UTF-8 bytes.
-/

namespace XBot

/-! ### JavaScript string primitives

Models of the JS string methods used by the source
(`String.prototype.toLowerCase`, `trim`, `includes`, and the
`replace(/^"|"$/g, '')` quote stripping), on the ASCII fragment the
repository's content actually uses. -/

/-- Model of JS `toLowerCase` on one character (ASCII fragment). -/
def jsLowerChar (c : Char) : Char :=
  if 65 ≤ c.toNat ∧ c.toNat ≤ 90 then Char.ofNat (c.toNat + 32) else c

/-- JS whitespace recognised by `trim` (ASCII fragment). -/
def jsIsSpace (c : Char) : Bool :=
  c = ' ' || c = '\t' || c = '\n' || c = '\r' || c.toNat = 11 || c.toNat = 12

/-- Model of JS `trim`: drop whitespace from both ends. -/
def trimChars (l : List Char) : List Char :=
  ((l.dropWhile jsIsSpace).reverse.dropWhile jsIsSpace).reverse

/-- `content.toLowerCase().trim()` as used by
`TemplatePostManager.generateContentHash`. -/
def jsNormalize (s : String) : String :=
  String.mk (trimChars (s.data.map jsLowerChar))

/-- `a.isPre b`: is `a` a prefix of `b` (JS substring matching helper)? -/
def isPre : List Char → List Char → Bool
  | [], _ => true
  | _ :: _, [] => false
  | a :: as, b :: bs => a == b && isPre as bs

/-- Does `sub` occur somewhere in the list (JS `String.includes`)? -/
def hasSub (sub : List Char) : List Char → Bool
  | [] => isPre sub []
  | c :: cs => isPre sub (c :: cs) || hasSub sub cs

/-- Model of JS `s.includes(sub)`. -/
def jsIncludes (s sub : String) : Bool := hasSub sub.data s.data

/-- Model of `result.replace(/^"|"$/g, '')`: strip one leading and one
trailing double-quote character. -/
def stripQuotes (s : String) : String :=
  let l := s.data
  let l1 := match l with
    | '"' :: rest => rest
    | _ => l
  let l2 := match l1.reverse with
    | '"' :: rest => rest.reverse
    | _ => l1
  String.mk l2

/-- Model of the JS falsy-fallback `a || b` on strings (`""` is falsy). -/
def orElseStr (a b : String) : String := if a = "" then b else a

/-! ### SHA-256 (model of node `crypto.createHash('sha256')`)

An executable FIPS 180-4 SHA-256 over byte lists, with 32-bit words as
`Nat` reduced mod `2^32`. -/

/-- 2^32, the word modulus. -/
def w32 : Nat := 4294967296

/-- Right-rotate a 32-bit word by `n`. -/
def rotr (x n : Nat) : Nat := ((x >>> n) ||| (x <<< (32 - n))) % w32

/-- SHA-256 small sigma 0. -/
def ssig0 (x : Nat) : Nat := (rotr x 7) ^^^ (rotr x 18) ^^^ (x >>> 3)

/-- SHA-256 small sigma 1. -/
def ssig1 (x : Nat) : Nat := (rotr x 17) ^^^ (rotr x 19) ^^^ (x >>> 10)

/-- SHA-256 big sigma 0. -/
def bsig0 (x : Nat) : Nat := (rotr x 2) ^^^ (rotr x 13) ^^^ (rotr x 22)

/-- SHA-256 big sigma 1. -/
def bsig1 (x : Nat) : Nat := (rotr x 6) ^^^ (rotr x 11) ^^^ (rotr x 25)

/-- SHA-256 choice function. -/
def chFn (e f g : Nat) : Nat := (e &&& f) ^^^ ((e ^^^ (w32 - 1)) &&& g)

/-- SHA-256 majority function. -/
def majFn (a b c : Nat) : Nat := (a &&& b) ^^^ (a &&& c) ^^^ (b &&& c)

/-- The 64 SHA-256 round constants. -/
def sha256K : List Nat :=
  [1116352408, 1899447441, 3049323471, 3921009573, 961987163, 1508970993,
   2453635748, 2870763221, 3624381080, 310598401, 607225278, 1426881987,
   1925078388, 2162078206, 2614888103, 3248222580, 3835390401, 4022224774,
   264347078, 604807628, 770255983, 1249150122, 1555081692, 1996064986,
   2554220882, 2821834349, 2952996808, 3210313671, 3336571891, 3584528711,
   113926993, 338241895, 666307205, 773529912, 1294757372, 1396182291,
   1695183700, 1986661051, 2177026350, 2456956037, 2730485921, 2820302411,
   3259730800, 3345764771, 3516065817, 3600352804, 4094571909, 275423344,
   430227734, 506948616, 659060556, 883997877, 958139571, 1322822218,
   1537002063, 1747873779, 1955562222, 2024104815, 2227730452, 2361852424,
   2428436474, 2756734187, 3204031479, 3329325298]

/-- The eight SHA-256 working registers / hash state words. -/
structure Regs where
  a : Nat
  b : Nat
  c : Nat
  d : Nat
  e : Nat
  f : Nat
  g : Nat
  h : Nat
deriving Repr, DecidableEq

/-- The SHA-256 initial hash value. -/
def sha256H0 : Regs :=
  ⟨0x6a09e667, 0xbb67ae85, 0x3c6ef372, 0xa54ff53a,
   0x510e527f, 0x9b05688c, 0x1f83d9ab, 0x5be0cd19⟩

/-- Group consecutive 4-byte big-endian quadruples into 32-bit words. -/
def bytesToWords : List Nat → List Nat
  | b0 :: b1 :: b2 :: b3 :: rest =>
      (((b0 * 256 + b1) * 256 + b2) * 256 + b3) :: bytesToWords rest
  | _ => []

/-- Extend the 16-word reversed schedule by `n` further words (reversed:
the head is the most recent word). -/
def extendSchedule : Nat → List Nat → List Nat
  | 0, rev => rev
  | n + 1, rev =>
      extendSchedule n
        (((ssig1 (rev.getD 1 0) + rev.getD 6 0 + ssig0 (rev.getD 14 0) +
           rev.getD 15 0) % w32) :: rev)

/-- The 64-entry message schedule of one block. -/
def schedule (block : List Nat) : List Nat :=
  (extendSchedule 48 (bytesToWords block).reverse).reverse

/-- One SHA-256 round. -/
def round1 (r : Regs) (kw : Nat × Nat) : Regs :=
  let t1 := (r.h + bsig1 r.e + chFn r.e r.f r.g + kw.1 + kw.2) % w32
  let t2 := (bsig0 r.a + majFn r.a r.b r.c) % w32
  ⟨(t1 + t2) % w32, r.a, r.b, r.c, (r.d + t1) % w32, r.e, r.f, r.g⟩

/-- Compress one 64-byte block into the running hash state. -/
def blockStep (H : Regs) (block : List Nat) : Regs :=
  let r := (sha256K.zip (schedule block)).foldl round1 H
  ⟨(H.a + r.a) % w32, (H.b + r.b) % w32, (H.c + r.c) % w32, (H.d + r.d) % w32,
   (H.e + r.e) % w32, (H.f + r.f) % w32, (H.g + r.g) % w32, (H.h + r.h) % w32⟩

/-- Fold `blockStep` over `n` leading 64-byte chunks of a padded message. -/
def foldBlocksFuel : Nat → Regs → List Nat → Regs
  | 0, H, _ => H
  | n + 1, H, l => foldBlocksFuel n (blockStep H (l.take 64)) (l.drop 64)

/-- Fold `blockStep` over the 64-byte chunks of a padded message. -/
def foldBlocks (H : Regs) (l : List Nat) : Regs :=
  foldBlocksFuel (l.length / 64) H l

/-- Big-endian 8-byte encoding of the 64-bit message bit length. -/
def len64Bytes (n : Nat) : List Nat :=
  [(n >>> 56) % 256, (n >>> 48) % 256, (n >>> 40) % 256, (n >>> 32) % 256,
   (n >>> 24) % 256, (n >>> 16) % 256, (n >>> 8) % 256, n % 256]

/-- SHA-256 message padding: `0x80`, zeros to 56 mod 64, 64-bit bit length. -/
def shaPad (msg : List Nat) : List Nat :=
  msg ++ [128] ++ List.replicate ((119 - msg.length % 64) % 64) 0 ++
    len64Bytes (8 * msg.length)

/-- Big-endian 4-byte encoding of a 32-bit word. -/
def wordBytes (x : Nat) : List Nat :=
  [(x >>> 24) % 256, (x >>> 16) % 256, (x >>> 8) % 256, x % 256]

/-- The 32-byte SHA-256 digest of a byte list. -/
def sha256Bytes (msg : List Nat) : List Nat :=
  let r := foldBlocks sha256H0 (shaPad msg)
  wordBytes r.a ++ wordBytes r.b ++ wordBytes r.c ++ wordBytes r.d ++
    wordBytes r.e ++ wordBytes r.f ++ wordBytes r.g ++ wordBytes r.h

/-- Lower-case hexadecimal digits. -/
def hexDigits : List Char :=
  String.toList "0123456789abcdef"

/-- Two-character lower-case hex encoding of one byte. -/
def byteHex (b : Nat) : List Char :=
  [hexDigits.getD (b / 16) '0', hexDigits.getD (b % 16) '0']

/-- UTF-8 encoding of one character. -/
def utf8EncodeChar (c : Char) : List Nat :=
  let n := c.toNat
  if n < 128 then [n]
  else if n < 2048 then [192 ||| (n >>> 6), 128 ||| (n &&& 63)]
  else if n < 65536 then
    [224 ||| (n >>> 12), 128 ||| ((n >>> 6) &&& 63), 128 ||| (n &&& 63)]
  else
    [240 ||| (n >>> 18), 128 ||| ((n >>> 12) &&& 63), 128 ||| ((n >>> 6) &&& 63),
     128 ||| (n &&& 63)]

/-- UTF-8 bytes of a string. -/
def strBytes (s : String) : List Nat := (s.data.map utf8EncodeChar).flatten

/-- Model of `createHash('sha256').update(s).digest('hex')`. -/
def sha256Hex (s : String) : String :=
  String.mk (((sha256Bytes (strBytes s)).map byteHex).flatten)

/-- `TemplatePostManager.generateContentHash`
(`post-manager.ts:383-385`): SHA-256 of the lower-cased, trimmed content. -/
def generateContentHash (content : String) : String :=
  sha256Hex (jsNormalize content)

/-- `TemplatePostGenerator.generateContentHash`
(`post-generator.ts:854-856`): SHA-256 of the raw, un-normalized content. -/
def generatorContentHash (content : String) : String :=
  sha256Hex content

/-! ### Content generator (`services/generator/post-generator.ts`)

The static topic taxonomy `TEMPLATE_TOPICS`, the weight table
`TOPIC_WEIGHTS` (decimal literals read as exact rationals), the per-topic
base posts of `getTopicPosts`, and the variation expansion. -/

/-- `TEMPLATE_TOPICS` (`post-generator.ts:6-48`), in insertion order. -/
def templateTopics : List (String × String) := [
  ("battle_wisdom", "Battle Wisdom"),
  ("war_experience", "War Experience"),
  ("weapon_knowledge", "Weapon Knowledge"),
  ("combat_psychology", "Combat Psychology"),
  ("tactical_thinking", "Tactical Thinking"),
  ("warrior_code", "Warrior Code"),
  ("battlefield_leadership", "Battlefield Leadership"),
  ("survival_in_combat", "Survival in Combat"),
  ("personal_philosophy", "Personal Philosophy"),
  ("death_mortality", "Death & Mortality"),
  ("redemption_change", "Redemption & Change"),
  ("inner_struggle", "Inner Struggle"),
  ("wisdom_experience", "Wisdom from Experience"),
  ("life_advice", "Life Advice"),
  ("purpose_meaning", "Purpose & Meaning"),
  ("fate_choice", "Fate vs Choice"),
  ("friendship_loyalty", "Friendship & Loyalty"),
  ("trust_betrayal", "Trust & Betrayal"),
  ("leadership", "Leadership"),
  ("family_bonds", "Family Bonds"),
  ("romance", "Romance"),
  ("social_dynamics", "Social Dynamics"),
  ("northern_values", "Northern Values"),
  ("cultural_traditions", "Cultural Traditions"),
  ("regional_pride", "Regional Pride"),
  ("cultural_differences", "Cultural Differences"),
  ("modern_life", "Modern Life Observations"),
  ("technology_change", "Technology & Change"),
  ("social_media", "Social Media & Communication"),
  ("work_labor", "Work & Labor"),
  ("humor_wit", "Humor & Wit"),
  ("everyday_wisdom", "Everyday Wisdom")]

/-- The topic ids, in `Object.keys(TEMPLATE_TOPICS)` order. -/
def templateTopicKeys : List String := templateTopics.map Prod.fst

/-- `TOPIC_WEIGHTS` (`post-generator.ts:51-91`), in insertion order, with
the decimal weight literals interpreted as exact rationals. -/
def topicWeights : List (String × ℚ) := [
  ("battle_wisdom", 8/100),
  ("personal_philosophy", 8/100),
  ("friendship_loyalty", 8/100),
  ("inner_struggle", 8/100),
  ("modern_life", 8/100),
  ("war_experience", 7/100),
  ("life_advice", 7/100),
  ("leadership", 7/100),
  ("northern_values", 7/100),
  ("humor_wit", 7/100),
  ("weapon_knowledge", 5/100),
  ("romance", 5/100),
  ("technology_change", 5/100),
  ("cultural_traditions", 5/100),
  ("everyday_wisdom", 5/100),
  ("combat_psychology", 3/100),
  ("tactical_thinking", 3/100),
  ("warrior_code", 3/100),
  ("battlefield_leadership", 3/100),
  ("survival_in_combat", 3/100),
  ("death_mortality", 3/100),
  ("redemption_change", 3/100),
  ("wisdom_experience", 3/100),
  ("purpose_meaning", 3/100),
  ("fate_choice", 3/100),
  ("trust_betrayal", 3/100),
  ("family_bonds", 3/100),
  ("social_dynamics", 3/100),
  ("regional_pride", 3/100),
  ("cultural_differences", 3/100),
  ("social_media", 3/100),
  ("work_labor", 3/100)]

/-- The base posts map of `getTopicPosts` (`post-generator.ts:384-773`). -/
def topicPostsData : List (String × List String) := [
  ("battle_wisdom",
   ["The best weapon is the one you know how to use. The worst is the one you think makes you look dangerous.",
    "In battle, the first rule is stay alive. Everything else comes after.",
    "A man who fights for nothing dies for nothing. Choose your battles wisely.",
    "The strongest warrior isn\x27t the one who never falls. It\x27s the one who keeps getting up.",
    "Fear keeps you alive. Panic gets you killed. Learn the difference.",
    "Sometimes the best strategy is to let your enemy think he\x27s winning. Then show him he\x27s not.",
    "Honor isn\x27t about how you fight. It\x27s about why you fight.",
    "A leader who won\x27t fight beside his men doesn\x27t deserve to lead them.",
    "Stay alive first. Win second. Everything else comes after.",
    "The best defense is knowing when to attack."]),
  ("war_experience",
   ["War isn\x27t glorious. It\x27s just men killing each other for reasons they\x27ve forgotten.",
    "In war, you learn that courage and stupidity look the same from a distance.",
    "The best warriors aren\x27t the bravest. They\x27re the ones who know when to run.",
    "War changes men. Some for better, most for worse.",
    "The dead don\x27t care about your reasons. They just want you to remember them.",
    "Every battle teaches you something. If you\x27re lucky, you live long enough to learn it.",
    "War is like a fire. It consumes everything, including the men who start it.",
    "The price of war is paid in blood, not gold.",
    "In war, there are no winners. Only survivors.",
    "War makes monsters of us all. The question is whether we can become men again."]),
  ("weapon_knowledge",
   ["A sword is only as good as the hand that holds it. And the hand is only as good as the mind that guides it.",
    "The best weapon is the one you can use without thinking.",
    "Every weapon has its purpose. Every purpose has its weapon.",
    "A blade is just metal until you give it meaning.",
    "The deadliest weapon is the one your enemy doesn\x27t see coming.",
    "Respect your weapon. It might be the only thing that keeps you alive.",
    "A weapon is only as dangerous as the man wielding it.",
    "The best fighters know their weapons like they know their own hands.",
    "Every weapon tells a story. Make sure yours is worth telling.",
    "A weapon is a tool. Use it wisely."]),
  ("combat_psychology",
   ["Fear keeps you alive. Panic gets you killed. Learn the difference.",
    "The mind is the first weapon. The body is just the tool.",
    "In battle, your thoughts can kill you faster than any blade.",
    "Confidence wins fights. Arrogance loses them.",
    "The best warriors control their fear, not eliminate it.",
    "Your enemy\x27s mind is as important as his sword.",
    "Combat is as much psychology as it is skill.",
    "The strongest weapon is a clear mind.",
    "Fear is your friend. Terror is your enemy.",
    "In battle, the mind must be as sharp as the blade."]),
  ("tactical_thinking",
   ["Sometimes the best strategy is to let your enemy think he\x27s winning. Then show him he\x27s not.",
    "The best tactician is the one who adapts to the battlefield, not the one who tries to change it.",
    "Every battle is different. Every enemy is different. Adapt or die.",
    "The best plan is the one that survives contact with the enemy.",
    "Tactics win battles. Strategy wins wars.",
    "Know your enemy. Know yourself. Know the ground.",
    "The best move is sometimes no move at all.",
    "Patience is a weapon. Use it wisely.",
    "The battlefield is a teacher. Learn from it.",
    "Sometimes retreat is the best advance."]),
  ("warrior_code",
   ["Honor isn\x27t about how you fight. It\x27s about why you fight.",
    "A warrior\x27s word is his bond. Break it and you break yourself.",
    "The code isn\x27t about rules. It\x27s about who you are.",
    "Honor is what you do when no one is watching.",
    "A true warrior fights for others, not for glory.",
    "The code is simple: do what\x27s right, not what\x27s easy.",
    "Honor is the only thing that survives death.",
    "A warrior without honor is just a killer.",
    "The code isn\x27t written in books. It\x27s written in blood.",
    "Honor is the difference between a warrior and a murderer."]),
  ("battlefield_leadership",
   ["A leader who won\x27t fight beside his men doesn\x27t deserve to lead them.",
    "Leadership isn\x27t about giving orders. It\x27s about setting an example.",
    "The best leaders lead from the front, not from behind walls.",
    "A true leader shares the danger with his men.",
    "Leadership is earned in battle, not given in peace.",
    "The best commanders know their men\x27s names.",
    "A leader\x27s courage inspires his men\x27s courage.",
    "Leadership is about responsibility, not privilege.",
    "The best leaders are servants to their men.",
    "A leader who asks his men to do what he won\x27t do is no leader at all."]),
  ("survival_in_combat",
   ["Stay alive first. Win second. Everything else comes after.",
    "Survival isn\x27t about being the strongest. It\x27s about being the last one standing.",
    "The first rule of staying alive: never trust a man who smiles too much.",
    "In the wild, you learn that everything wants to kill you. Men are no different.",
    "Survival is a skill. Like any skill, it can be learned.",
    "The best survivors are the ones who know when to run.",
    "Survival isn\x27t about winning. It\x27s about not losing.",
    "The deadliest enemy is the one you don\x27t see coming.",
    "Survival is about adaptation, not strength.",
    "The best survivors are the ones who think ahead."]),
  ("personal_philosophy",
   ["Life is short and brutal. Best to spend it with people worth dying for.",
    "Maybe the point isn\x27t to find meaning in life, but to give meaning to the life you have.",
    "We make our choices, then our choices make us.",
    "The past is written. The future is a blank page. The present is where you write your story.",
    "Life is like a battle. You don\x27t get to choose when it starts, but you can choose how you fight.",
    "The meaning of life is to give life meaning.",
    "Every man has his own path. Some are longer than others.",
    "Life is what happens while you\x27re making other plans.",
    "The best life is the one you choose to live.",
    "Life is a journey, not a destination."]),
  ("death_mortality",
   ["Death comes for us all. The question is whether you face it or run.",
    "The dead don\x27t care about your reasons. They just want you to remember them.",
    "Death is the great equalizer. It doesn\x27t care about your wealth or status.",
    "Every man dies. Not every man truly lives.",
    "Death is just another enemy. Face it with courage.",
    "The fear of death is worse than death itself.",
    "Death is the price we pay for life.",
    "The dead are at peace. It\x27s the living who suffer.",
    "Death is not the end. It\x27s just the beginning of something else.",
    "Face death with dignity, and you\x27ll live with honor."]),
  ("redemption_change",
   ["Maybe a man can change. I\x27m trying, but the past doesn\x27t let go easily.",
    "Redemption isn\x27t about forgetting what you\x27ve done. It\x27s about doing better.",
    "The Bloody-Nine can\x27t be killed, but maybe he can be tamed. I hope so.",
    "Change is hard. But it\x27s harder to live with who you used to be.",
    "Every man deserves a chance to be better than he was.",
    "Redemption is a journey, not a destination.",
    "The past is a prison. The future is freedom. Choose wisely.",
    "You can\x27t change what you\x27ve done, but you can change what you do.",
    "Redemption is earned, not given.",
    "The hardest battle is the one against yourself."]),
  ("inner_struggle",
   ["The Bloody-Nine is always there, waiting. I try to keep him chained.",
    "Sometimes I wonder if the man or the monster is the real me.",
    "The battle within is harder than any battle without.",
    "Every man has his demons. The question is whether you let them control you.",
    "The strongest enemy is the one inside your head.",
    "Inner peace is harder to find than outer peace.",
    "The mind is a battlefield. Choose your side wisely.",
    "Your greatest enemy is yourself.",
    "The struggle within defines the man without.",
    "Inner strength is the hardest strength to build."]),
  ("wisdom_experience",
   ["You learn more from one defeat than from a hundred victories.",
    "Experience is the best teacher. Unfortunately, it\x27s also the most expensive.",
    "Wisdom comes from making mistakes. Intelligence comes from learning from them.",
    "The older you get, the more you realize how little you know.",
    "Experience is what you get when you don\x27t get what you want.",
    "Wisdom is knowing what to do. Experience is knowing how to do it.",
    "The best lessons are the ones that hurt the most.",
    "Experience is the price of wisdom.",
    "You can\x27t buy experience. You have to earn it.",
    "Wisdom is the reward for surviving your mistakes."]),
  ("life_advice",
   ["Don\x27t waste time on people who wouldn\x27t waste time on you. Life\x27s too short for that.",
    "The best time to fix a problem is before it becomes a problem. The second best time is now.",
    "Life is too short to hold grudges. But it\x27s also too short to forget lessons.",
    "Choose your battles wisely. Not every fight is worth fighting.",
    "The best investment you can make is in yourself.",
    "Life is what happens while you\x27re making other plans.",
    "The only person you can change is yourself.",
    "Life is a series of choices. Make good ones.",
    "The best life is the one you choose to live.",
    "Life is too short to be anything but happy."]),
  ("purpose_meaning",
   ["Maybe the point isn\x27t to find meaning in life, but to give meaning to the life you have.",
    "Purpose is what you make of it. Meaning is what you give to it.",
    "The meaning of life is to give life meaning.",
    "Find your purpose, and you\x27ll find your peace.",
    "Purpose is the compass that guides your life.",
    "The best purpose is the one that serves others.",
    "Meaning comes from what you do, not what you have.",
    "Purpose is the fuel that drives your soul.",
    "The meaning of life is to live a meaningful life.",
    "Find your purpose, and you\x27ll find your power."]),
  ("fate_choice",
   ["We make our choices, then our choices make us.",
    "Fate is what happens to you. Choice is what you do about it.",
    "You can\x27t control what happens to you, but you can control how you respond.",
    "Destiny is not written in stone. It\x27s written in choices.",
    "The future is not set. It\x27s created by the choices you make today.",
    "Fate is the hand you\x27re dealt. Choice is how you play it.",
    "You are the author of your own story. Write it well.",
    "Choice is the greatest power you have. Use it wisely.",
    "The past is fate. The future is choice.",
    "Your choices define your destiny."]),
  ("friendship_loyalty",
   ["A friend who stands with you in battle is worth more than gold.",
    "Loyalty is the only thing that matters when everything else is blood and steel.",
    "I\x27ve killed many men, but I\x27d die for my friends. That\x27s the difference.",
    "A true friend is the one who stays when everyone else leaves.",
    "Loyalty is not given. It\x27s earned.",
    "Friendship is the only wealth that matters.",
    "A friend in need is a friend indeed. A friend in battle is a friend forever.",
    "Loyalty is the foundation of any relationship worth having.",
    "True friends are hard to find and harder to lose.",
    "Friendship is the only thing that survives death."]),
  ("trust_betrayal",
   ["Trust is hard to earn and easy to lose. I\x27ve learned that the hard way.",
    "Betrayal cuts deeper than any blade.",
    "Trust is the foundation of everything worth having.",
    "Once trust is broken, it\x27s harder to repair than to replace.",
    "Trust is earned in drops and lost in buckets.",
    "The worst wounds are the ones you can\x27t see.",
    "Trust is a gift. Don\x27t waste it on those who don\x27t deserve it.",
    "Betrayal is the price of trust.",
    "Trust is the currency of relationships.",
    "The hardest thing to trust is your own judgment."]),
  ("leadership",
   ["A true leader doesn\x27t need to tell you he\x27s in charge. You just know.",
    "Leadership isn\x27t about power. It\x27s about responsibility.",
    "The best leaders lead by example, not by command.",
    "A leader\x27s job is to serve his people, not to rule them.",
    "Leadership is earned, not given.",
    "The best leaders are the ones who make others better.",
    "Leadership is about vision, not position.",
    "A true leader takes responsibility for his team\x27s failures.",
    "Leadership is not about being in charge. It\x27s about taking care of those in your charge.",
    "The best leaders are the ones who don\x27t need to be leaders."]),
  ("family_bonds",
   ["Blood doesn\x27t make family. Loyalty does.",
    "Family is not about blood. It\x27s about who\x27s there when you need them.",
    "The strongest bonds are the ones forged in adversity.",
    "Family is the foundation of everything worth having.",
    "Blood is thicker than water, but loyalty is thicker than blood.",
    "Family is not about who you\x27re related to. It\x27s about who you\x27d die for.",
    "The best family is the one you choose.",
    "Family is the only thing that matters in the end.",
    "Blood makes you related. Loyalty makes you family.",
    "Family is the anchor that keeps you grounded."]),
  ("romance",
   ["Love is like war. Easy to start, hard to finish, and you never know how it\x27ll end.",
    "The heart wants what it wants. The head knows what it needs.",
    "Love is the only thing stronger than fear.",
    "The best love is the kind that makes you better.",
    "Love is not about finding the perfect person. It\x27s about finding the person who makes you perfect.",
    "The heart has reasons that reason doesn\x27t understand.",
    "Love is the greatest adventure of all.",
    "The best love stories are the ones that last.",
    "Love is not about possession. It\x27s about partnership.",
    "The heart knows what the mind cannot understand."]),
  ("social_dynamics",
   ["Men are like wolves. They follow the strongest, but they respect the wisest.",
    "Society is just a pack with rules.",
    "People are predictable. Groups are not.",
    "The strongest survive, but the wisest thrive.",
    "Social order is just violence by another name.",
    "People follow leaders, not ideas.",
    "The best leaders understand human nature.",
    "Society is built on trust and destroyed by betrayal.",
    "People are more alike than they are different.",
    "The strongest bonds are forged in adversity."]),
  ("northern_values",
   ["In the North, we say a man\x27s worth is measured by his enemies. I\x27ve been worth a lot.",
    "The North doesn\x27t care about your dreams. It only cares if you can survive.",
    "Northern hospitality means sharing your fire, your food, and your blade.",
    "The cold teaches you what you can survive. The North doesn\x27t forgive weakness.",
    "In the North, we value strength, honor, and loyalty above all else.",
    "The North is harsh, but it\x27s honest.",
    "Northern wisdom is hard-won and well-earned.",
    "The North doesn\x27t care about your past. It only cares about your present.",
    "In the North, we say what we mean and mean what we say.",
    "The North is not for the weak of heart or weak of will."]),
  ("cultural_traditions",
   ["Northern hospitality means sharing your fire, your food, and your blade.",
    "Traditions are the foundation of culture. Respect them.",
    "Every culture has its wisdom. Learn from all of them.",
    "Traditions are not rules. They\x27re guidelines for living.",
    "The best traditions are the ones that bring people together.",
    "Culture is what you make of it.",
    "Traditions are the stories we tell ourselves about who we are.",
    "The strongest cultures are the ones that adapt.",
    "Traditions are the bridge between past and present.",
    "Culture is the soul of a people."]),
  ("regional_pride",
   ["The North doesn\x27t care about your dreams. It only cares if you can survive.",
    "Regional pride is about knowing where you come from.",
    "Every region has its strengths. Every region has its weaknesses.",
    "Pride in your home is pride in yourself.",
    "The best regions are the ones that welcome strangers.",
    "Regional pride is not about being better than others. It\x27s about being the best version of yourself.",
    "Home is where your heart is. Pride is where your soul is.",
    "The strongest regions are the ones that work together.",
    "Regional pride is about identity, not superiority.",
    "The best regions are the ones that remember their roots."]),
  ("cultural_differences",
   ["Southerners talk about honor. Northerners live it.",
    "Cultural differences are what make the world interesting.",
    "Every culture has its own wisdom. Learn from all of them.",
    "Differences are not divisions. They\x27re opportunities to learn.",
    "The best cultures are the ones that respect others.",
    "Cultural differences are the spice of life.",
    "Every culture has something to teach us.",
    "Differences are what make us unique. Similarities are what make us human.",
    "The strongest cultures are the ones that adapt and grow.",
    "Cultural differences are bridges, not walls."]),
  ("modern_life",
   ["People today worry about things that wouldn\x27t last five minutes in the North. Perspective changes everything.",
    "Modern life is complicated, but people are still the same.",
    "Technology changes, but human nature doesn\x27t.",
    "The more things change, the more they stay the same.",
    "Modern life is fast, but wisdom is slow.",
    "People today have more comforts but less contentment.",
    "The modern world is complex, but the human heart is simple.",
    "Technology makes life easier, but it doesn\x27t make it better.",
    "Modern life is about convenience, but life is about meaning.",
    "The more connected we are, the more alone we feel."]),
  ("technology_change",
   ["They say the world is getting smaller. Feels like it\x27s getting more complicated.",
    "Technology changes how we live, but not why we live.",
    "The more things change, the more they stay the same.",
    "Technology is a tool, not a solution.",
    "The best technology is the kind that serves people, not the other way around.",
    "Technology makes life easier, but it doesn\x27t make it simpler.",
    "The more advanced we get, the more we need the basics.",
    "Technology is progress, but wisdom is timeless.",
    "The best technology is the kind that brings people together.",
    "Technology changes the world, but people change themselves."]),
  ("social_media",
   ["In my day, if you wanted to insult someone, you had to do it to their face. Now they hide behind screens.",
    "Social media is like a mirror. It shows you what you want to see.",
    "The more connected we are, the more disconnected we become.",
    "Social media is a tool. Use it wisely.",
    "The best communication is still face to face.",
    "Social media makes it easy to talk, but hard to listen.",
    "The more followers you have, the fewer friends you need.",
    "Social media is about connection, but real connection is about presence.",
    "The best social media is the kind that brings people together.",
    "Social media is a window to the world, but it\x27s not the world."]),
  ("work_labor",
   ["A man should take pride in his work, whatever it is. Even if it\x27s killing people.",
    "Work is not about what you do. It\x27s about who you become.",
    "The best work is the kind that serves others.",
    "Work is a reflection of your character.",
    "The hardest work is the work you do on yourself.",
    "Work is not about money. It\x27s about meaning.",
    "The best workers are the ones who care about their work.",
    "Work is a teacher. Learn from it.",
    "The most important work is the work you do for others.",
    "Work is not about success. It\x27s about significance."]),
  ("humor_wit",
   ["They say you can\x27t teach an old dog new tricks. But you can teach an old warrior new ways to kill. That counts, right?",
    "Life is too short to be serious all the time. Even warriors need to laugh.",
    "The best humor is the kind that makes you think.",
    "Laughter is the best medicine. Unless you\x27re bleeding. Then it\x27s bandages.",
    "The best jokes are the ones that are true.",
    "Humor is the weapon of the wise.",
    "The best humor is the kind that brings people together.",
    "Laughter is the sound of the soul healing.",
    "The best jokes are the ones that make you think.",
    "Humor is the light in the darkness."]),
  ("everyday_wisdom",
   ["The best time to fix a problem is before it becomes a problem. The second best time is now.",
    "Common sense is not so common.",
    "The best advice is the kind you can actually use.",
    "Wisdom is knowing what to do. Common sense is doing it.",
    "The best solutions are often the simplest ones.",
    "Everyday wisdom is the wisdom that gets you through the day.",
    "The best advice is the kind that works.",
    "Common sense is the foundation of wisdom.",
    "The best solutions are the ones that work.",
    "Everyday wisdom is the wisdom of experience."])]

/-- `TemplatePostGenerator.getTopicPosts`: `topicPosts[topic] || []`. -/
def getTopicPosts (topic : String) : List String :=
  (topicPostsData.lookup topic).getD []

/-- The literal fallback post used by `generateVariation`. -/
def fallbackPost : String := "You have to be realistic about these things."

/-- `TemplatePostGenerator.createVariations` (`post-generator.ts:795-851`):
the base post followed by the keyword-triggered variation sentences, then
the 280-character filter and quote stripping. -/
def createVariations (basePost : String) : List String :=
  let variations := [basePost]
    ++ (if jsIncludes basePost "war" then
          ["War changes everything. Including the men who fight it.",
           "War is the great teacher. Unfortunately, the lessons are expensive.",
           "In war, you learn what you\x27re really made of."] else [])
    ++ (if jsIncludes basePost "battle" then
          ["Battle reveals the truth about men.",
           "In battle, there are no secrets.",
           "Battle is the ultimate test of character."] else [])
    ++ (if jsIncludes basePost "friend" then
          ["True friends are rare. Treasure them.",
           "Friendship is the only wealth that matters.",
           "A friend in need is a friend indeed."] else [])
    ++ (if jsIncludes basePost "life" then
          ["Life is what you make of it.",
           "Life teaches hard lessons. Learn them well.",
           "Life is too short to waste on foolishness."] else [])
    ++ (if jsIncludes basePost "North" then
          ["The North teaches hard lessons.",
           "Northern wisdom is earned, not given.",
           "The North doesn\x27t forgive weakness."] else [])
    ++ (if jsIncludes basePost "Bloody-Nine" then
          ["The Bloody-Nine is always there, waiting.",
           "Sometimes the monster is stronger than the man.",
           "The Bloody-Nine doesn\x27t ask permission."] else [])
  (variations.filter (fun p => p.length ≤ 280)).map stripQuotes

/-- `TemplatePostGenerator.generateVariation` (`post-generator.ts:776-792`).
JS `a[i] || b` is modelled by `orElseStr` on the in-range element (an empty
string is falsy), and `variations[NaN] || basePost` for an empty variation
list by the length-zero branch. -/
def generateVariation (basePosts : List String) (index : Nat) : String :=
  if basePosts.length = 0 then fallbackPost
  else
    let basePost := orElseStr (basePosts.getD (index % basePosts.length) "") fallbackPost
    let variations := createVariations basePost
    let variationIndex := index / basePosts.length
    let result :=
      if variations.length = 0 then basePost
      else orElseStr (variations.getD (variationIndex % variations.length) "") basePost
    stripQuotes result

/-- One generated post record (`PostGenerationResult` of
`shared/types/index.ts`). -/
structure PostGenerationResult where
  content : String
  category : Option String
  tokens_used : Nat
  cost : ℚ
  model : String
deriving Repr, DecidableEq

/-- The body of `TemplatePostGenerator.generateTopicPosts`
(`post-generator.ts:99-125`) after the known-topic check: `count`
variations of the topic's base posts with the local-generation metadata. -/
def generateTopicPostsOk (topic : String) (count : Nat) : List PostGenerationResult :=
  (List.range count).map (fun i =>
    { content := generateVariation (getTopicPosts topic) i
      category := some topic
      tokens_used := 50
      cost := 1/1000
      model := "template-bot-local" })

/-- `TemplatePostGenerator.generateTopicPosts`: throws `Unknown topic` when
the topic is not a key of `TEMPLATE_TOPICS`. -/
def generateTopicPosts (topic : String) (count : Nat) :
    Except String (List PostGenerationResult) :=
  if (templateTopics.lookup topic).isSome then .ok (generateTopicPostsOk topic count)
  else .error ("Unknown topic: " ++ topic)

/-- `TemplatePostGenerator.generateAllPosts` (`post-generator.ts:128-141`):
63 posts for each key of `TEMPLATE_TOPICS`, concatenated in key order.
Every iterated topic is a key of the map, so the `Unknown topic` throw of
`generateTopicPosts` is unreachable and the total body is used directly. -/
def generateAllPosts : List PostGenerationResult :=
  (templateTopicKeys.map (fun t => generateTopicPostsOk t 63)).flatten

/-- The cumulative-weight walk inside `TemplatePostGenerator.getRandomTopic`
(`post-generator.ts:863-868`): first entry whose cumulative weight reaches
the draw. -/
def pickLoop : List (String × ℚ) → ℚ → ℚ → Option String
  | [], _, _ => none
  | (t, w) :: rest, q, cum =>
      let c := cum + w
      if q ≤ c then some t else pickLoop rest q c

/-- `TemplatePostGenerator.getRandomTopic` (`post-generator.ts:859-872`) as a
function of the drawn value `q` (the source draws `q` via `Math.random()`;
arithmetic is modelled in exact rationals): the cumulative walk over
`TOPIC_WEIGHTS`, falling back to
`topicKeys.length > 0 ? topicKeys[0] || 'battle_wisdom' : 'battle_wisdom'`. -/
def getRandomTopicQ (q : ℚ) : String :=
  match pickLoop topicWeights q 0 with
  | some t => t
  | none =>
      match templateTopicKeys with
      | [] => "battle_wisdom"
      | t :: _ => orElseStr t "battle_wisdom"

/-! ### Database state (`shared/database/schema.ts`)

Row models of the `posts`, `bot_stats` and `post_logs` tables.  The
`posts` list is kept in insertion (rowid) order, which is also the order a
SQLite table scan visits rows; `AUTOINCREMENT` ids are threaded through
`nextPostId`/`nextLogId`.  `CURRENT_TIMESTAMP` is an explicitly passed
`Nat`. -/

/-- A row of the `posts` table. -/
structure PostRow where
  id : Nat
  content : String
  bot_id : String
  category : Option String
  used : Bool
  used_at : Option Nat
  created_at : Nat
  updated_at : Nat
  generation_cost : Option ℚ
  generation_tokens : Option Nat
  generation_model : Option String
  content_hash : Option String
deriving Repr, DecidableEq

/-- A row of the `post_logs` table (append-only attempt log).
`attempt_number` carries the schema default `1` when the insert omits it. -/
structure LogRow where
  id : Nat
  bot_id : String
  post_id : Option Nat
  attempt_number : Nat
  success : Bool
  tweet_id : Option String
  error_message : Option String
  response_time_ms : Option Nat
  created_at : Nat
deriving Repr, DecidableEq

/-- A row of the `bot_stats` table. -/
structure StatsRow where
  bot_id : String
  total_posts : Int
  used_posts : Int
  remaining_posts : Int
  last_post_at : Option Nat
  last_replenishment_at : Option Nat
  total_cost : ℚ
  total_tokens : Int
  created_at : Nat
  updated_at : Nat
deriving Repr, DecidableEq

/-- The database state used by the publish cycle. -/
structure DB where
  posts : List PostRow
  postLogs : List LogRow
  botStats : List StatsRow
  nextPostId : Nat
  nextLogId : Nat
deriving Repr, DecidableEq

/-! ### Post manager (`services/post-manager.ts`) -/

/-- The row kept by a SQLite scan for
`ORDER BY created_at ASC LIMIT 1`: the first row, in table (rowid) order,
whose `created_at` is minimal.  A strictly smaller `created_at` later in
the scan replaces the current best; an equal one does not. -/
def selectOldest : List PostRow → Option PostRow
  | [] => none
  | r :: rs =>
      match selectOldest rs with
      | none => some r
      | some b => if b.created_at < r.created_at then some b else some r

/-- `TemplatePostManager.getNextPost` (`post-manager.ts:77-109`):
`SELECT * FROM posts WHERE bot_id = ? AND used = 0 ORDER BY created_at ASC
LIMIT 1`. -/
def getNextPost (botId : String) (db : DB) : Option PostRow :=
  selectOldest (db.posts.filter (fun r => r.bot_id == botId && r.used == false))

/-- `TemplatePostManager.markPostAsUsed` (`post-manager.ts:122-136`):
`UPDATE posts SET used = 1, used_at = CURRENT_TIMESTAMP, updated_at =
CURRENT_TIMESTAMP WHERE id = ? AND bot_id = ?`, together with the schema
trigger `update_bot_stats_on_post_used` (`schema.ts:146-159`), which fires
once per updated row whose `used` flag transitions `0 → 1` and bumps the
bot's `bot_stats` row. -/
def markPostAsUsed (botId : String) (postId : Nat) (now : Nat) (db : DB) : DB :=
  let fired : Nat :=
    db.posts.countP (fun r => r.id == postId && r.bot_id == botId && r.used == false)
  let posts := db.posts.map (fun r =>
    if r.id == postId && r.bot_id == botId then
      { r with used := true, used_at := some now, updated_at := now }
    else r)
  let botStats :=
    if fired == 0 then db.botStats
    else db.botStats.map (fun s =>
      if s.bot_id == botId then
        { s with used_posts := s.used_posts + (fired : Int),
                 remaining_posts := s.remaining_posts - (fired : Int),
                 last_post_at := some now, updated_at := now }
      else s)
  { db with posts := posts, botStats := botStats }

/-- The `{total, used, remaining}` record returned by
`TemplatePostManager.getPostCount`. -/
structure PostCount where
  total : Nat
  used : Nat
  remaining : Nat
deriving Repr, DecidableEq

/-- `TemplatePostManager.getPostCount` (`post-manager.ts:202-223`): two
`COUNT(*)` scans and `remaining = total - used`. -/
def getPostCount (botId : String) (db : DB) : PostCount :=
  let total := db.posts.countP (fun r => r.bot_id == botId)
  let used := db.posts.countP (fun r => r.bot_id == botId && r.used == true)
  ⟨total, used, total - used⟩

/-- The `INSERT INTO posts (content, bot_id, used, created_at, updated_at,
generation_cost, generation_tokens, generation_model, content_hash)` of
`storePosts` (`post-manager.ts:166-178`); `category` is not inserted and
stays `NULL`; the id comes from `AUTOINCREMENT`. -/
def insertPost (botId : String) (p : PostGenerationResult) (h : String)
    (now : Nat) (db : DB) : DB :=
  { db with
    posts := db.posts ++
      [{ id := db.nextPostId, content := p.content, bot_id := botId,
         category := none, used := false, used_at := none, created_at := now,
         updated_at := now, generation_cost := some p.cost,
         generation_tokens := some p.tokens_used,
         generation_model := some p.model, content_hash := some h }],
    nextPostId := db.nextPostId + 1 }

/-- Does a row with this `content_hash` exist for this bot
(the duplicate pre-check `SELECT id FROM posts WHERE bot_id = ? AND
content_hash = ?` of `storePosts`)? -/
def hashExistsForBot (posts : List PostRow) (botId h : String) : Bool :=
  posts.any (fun r => r.bot_id == botId && r.content_hash == some h)

/-- Does a row with this `content_hash` exist for any bot (the global
`content_hash TEXT UNIQUE` column constraint of `schema.ts:16`)? -/
def hashExistsGlobal (posts : List PostRow) (h : String) : Bool :=
  posts.any (fun r => r.content_hash == some h)

/-- The loop body of `TemplatePostManager.storePosts`
(`post-manager.ts:148-190`), parametric in the content-hash function (the
source fixes it to `generateContentHash`); also returns the number of rows
inserted and of duplicates skipped.  An item whose hash already exists for
this bot is skipped; an insert colliding with another bot's row on the
global `content_hash UNIQUE` constraint raises, aborting (rolling back) the
whole transaction. -/
def storePostsGo (hash : String → String) (botId : String) (now : Nat) :
    List PostGenerationResult → DB → Nat → Nat → Except String (DB × Nat × Nat)
  | [], db, ins, skip => .ok (db, ins, skip)
  | p :: ps, db, ins, skip =>
      let h := hash p.content
      if hashExistsForBot db.posts botId h then
        storePostsGo hash botId now ps db ins (skip + 1)
      else if hashExistsGlobal db.posts h then
        .error "UNIQUE constraint failed: posts.content_hash"
      else
        storePostsGo hash botId now ps (insertPost botId p h now db) (ins + 1) skip

/-- `TemplatePostManager.storePosts`: the transaction either commits the
whole batch or rolls back (the caller keeps the unchanged state on
`.error`). -/
def storePosts (botId : String) (ps : List PostGenerationResult) (now : Nat)
    (db : DB) : Except String DB :=
  match storePostsGo generateContentHash botId now ps db 0 0 with
  | .ok (db', _, _) => .ok db'
  | .error e => .error e

/-! ### Bot engine (`bot.ts`) -/

/-- Append a `post_logs` row (the two `INSERT INTO post_logs` statements of
`postWithRetry`). -/
def insertLog (db : DB) (row : LogRow) : DB :=
  { db with postLogs := db.postLogs ++ [row], nextLogId := db.nextLogId + 1 }

/-- The result record of `postWithRetry`. -/
structure RetryResult where
  success : Bool
  tweet_id : Option String
  error : Option String
deriving Repr, DecidableEq

/-- The retry loop of `TemplateBot.postWithRetry` (`bot.ts:246-288`),
structurally recursive on the number of remaining attempts.  `client
content attempt` is the outcome of `twitterService.postTweet(content)` on
that attempt; `rts content attempt` its response time.  On success the log
insert omits `attempt_number` (so the schema default `1` applies) and
records `tweet_id` and `response_time_ms`; on failure it records the
attempt number and error message, and the loop sleeps `retryDelay`
(collected in the returned list) before the next attempt.  With zero
attempts remaining the loop falls through to
`{success: false, error: 'Max retries exceeded'}`. -/
def postWithRetryGo (client : String → Nat → Except String String)
    (rts : String → Nat → Nat) (maxRetries retryDelay : Nat) (botId : String)
    (now : Nat) (content : String) :
    Nat → Nat → DB → DB × RetryResult × List Nat
  | _, 0, db => (db, ⟨false, none, some "Max retries exceeded"⟩, [])
  | attempt, fuel + 1, db =>
      match client content attempt with
      | .ok tweetId =>
          (insertLog db
            { id := db.nextLogId, bot_id := botId, post_id := none,
              attempt_number := 1, success := true, tweet_id := some tweetId,
              error_message := none, response_time_ms := some (rts content attempt),
              created_at := now },
           ⟨true, some tweetId, none⟩, [])
      | .error e =>
          let db1 := insertLog db
            { id := db.nextLogId, bot_id := botId, post_id := none,
              attempt_number := attempt, success := false, tweet_id := none,
              error_message := some e, response_time_ms := none,
              created_at := now }
          if attempt == maxRetries then (db1, ⟨false, none, some e⟩, [])
          else
            let rec' := postWithRetryGo client rts maxRetries retryDelay botId now
              content (attempt + 1) fuel db1
            (rec'.1, rec'.2.1, retryDelay :: rec'.2.2)

/-- `TemplateBot.postWithRetry`: attempts `1..maxRetries`. -/
def postWithRetry (client : String → Nat → Except String String)
    (rts : String → Nat → Nat) (maxRetries retryDelay : Nat) (botId : String)
    (now : Nat) (content : String) (db : DB) : DB × RetryResult × List Nat :=
  postWithRetryGo client rts maxRetries retryDelay botId now content 1 maxRetries db

/-- The `UPDATE bot_stats SET total_posts = total_posts + ?,
remaining_posts = remaining_posts + ?, last_replenishment_at =
CURRENT_TIMESTAMP ... WHERE bot_id = ?` of `TemplateBot.generatePosts`
(`bot.ts:338-345`), with `?` the full generated batch length. -/
def bumpStatsAfterGen (botId : String) (n : Nat) (now : Nat) (db : DB) : DB :=
  { db with botStats := db.botStats.map (fun s =>
      if s.bot_id == botId then
        { s with total_posts := s.total_posts + (n : Int),
                 remaining_posts := s.remaining_posts + (n : Int),
                 last_replenishment_at := some now, updated_at := now }
      else s) }

/-- `TemplateBot.generatePosts` (`bot.ts:324-352`): generate all posts with
the local generator, store them, then bump `bot_stats` by the generated
batch length (regardless of how many were actually inserted).  A storage
error propagates (`.error`). -/
def generatePosts (botId : String) (now : Nat) (db : DB) : Except String DB :=
  let posts := generateAllPosts
  match storePosts botId posts now db with
  | .error e => .error e
  | .ok db1 => .ok (bumpStatsAfterGen botId posts.length now db1)

/-- `TemplateBot.checkAndGeneratePosts` (`bot.ts:298-313`): if the
remaining count is at or below `REPLENISHMENT_THRESHOLD`, run
`generatePosts`; any error is caught and only logged.  The returned flag
records whether replenishment was triggered. -/
def checkAndGeneratePosts (botId : String) (threshold : Nat) (now : Nat)
    (db : DB) : DB × Bool :=
  let remaining := (getPostCount botId db).remaining
  let trig := decide (remaining ≤ threshold)
  (if trig then
     match generatePosts botId now db with
     | .ok db' => db'
     | .error _ => db
   else db, trig)

/-- What one `executePost` cycle reported: the fetched post id (if any),
the retry-loop outcome, the sleeps performed between attempts, and whether
the post-cycle check triggered replenishment. -/
structure CycleReport where
  postId : Option Nat
  result : Option RetryResult
  sleeps : List Nat
  postCycleTriggered : Bool
deriving Repr, DecidableEq

/-- `TemplateBot.executePost` (`bot.ts:202-232`): fetch the next unused
post; with none, generate a new batch and return (errors propagate).
Otherwise publish with retries, mark the post used only on success, and
run the post-cycle replenishment check (whose errors are swallowed). -/
def executePost (client : String → Nat → Except String String)
    (rts : String → Nat → Nat) (maxRetries retryDelay threshold : Nat)
    (botId : String) (now : Nat) (db : DB) :
    Except String (DB × CycleReport) :=
  match getNextPost botId db with
  | none =>
      match generatePosts botId now db with
      | .error e => .error e
      | .ok db' => .ok (db', ⟨none, none, [], false⟩)
  | some post =>
      let step := postWithRetry client rts maxRetries retryDelay botId now
        post.content db
      let db1 := step.1
      let res := step.2.1
      let db2 := if res.success then markPostAsUsed botId post.id now db1 else db1
      let checked := checkAndGeneratePosts botId threshold now db2
      .ok (checked.1, ⟨some post.id, some res, step.2.2, checked.2⟩)

/-! ### Supporting lemmas -/

/-- Hex encoding doubles the byte count. -/
theorem hexFlatten_length (l : List Nat) :
    ((l.map byteHex).flatten).length = 2 * l.length := by
  induction l with
  | nil => simp
  | cons b bs ih => simp [byteHex, ih]; omega

/-- A SHA-256 digest is 32 bytes long. -/
theorem sha256Bytes_length (msg : List Nat) : (sha256Bytes msg).length = 32 := by
  simp [sha256Bytes, wordBytes]

/-- A hex SHA-256 digest is 64 characters long. -/
theorem sha256Hex_length (s : String) : (sha256Hex s).length = 64 := by
  have h := hexFlatten_length (sha256Bytes (strBytes s))
  simp [sha256Hex, String.length, sha256Bytes_length] at h ⊢
  omega

/-- A topic returned by the cumulative walk is a topic of the table. -/
theorem pickLoop_mem (l : List (String × ℚ)) (q cum : ℚ) (t : String)
    (h : pickLoop l q cum = some t) : t ∈ l.map Prod.fst := by
  induction l generalizing cum with
  | nil => simp [pickLoop] at h
  | cons x xs ih =>
      rw [pickLoop] at h
      by_cases hq : q ≤ cum + x.2
      · simp only [if_pos hq, Option.some.injEq] at h
        simp [← h]
      · simp only [if_neg hq] at h
        exact List.mem_cons_of_mem _ (ih _ h)

/-- The spec-side cumulative-weight table: each topic paired with the
cumulative weight the walk reaches at it (second, spec-worded definition
used to characterise `pickLoop` by refinement). -/
def cumulTable : List (String × ℚ) → ℚ → List (String × ℚ)
  | [], _ => []
  | (t, w) :: rest, cum => (t, cum + w) :: cumulTable rest (cum + w)

/-- `pickLoop` returns exactly the first table entry whose cumulative
weight has reached the draw. -/
theorem pickLoop_eq_find (l : List (String × ℚ)) (q cum : ℚ) :
    pickLoop l q cum =
      ((cumulTable l cum).find? (fun p => decide (q ≤ p.2))).map Prod.fst := by
  induction l generalizing cum with
  | nil => simp [pickLoop, cumulTable]
  | cons x xs ih =>
      rw [pickLoop, cumulTable]
      by_cases hq : q ≤ cum + x.2
      · simp [List.find?, hq]
      · simp only [List.find?, decide_eq_true_eq]
        rw [if_neg hq, ih]
        simp [hq]

/-- If the draw is at most the cumulative weight of the first `k` entries
(all weights non-negative, `1 ≤ k ≤` table length), the walk stops within
the first `k` entries. -/
theorem pickLoop_within (l : List (String × ℚ)) (k : Nat) (q cum : ℚ)
    (hw : ∀ w ∈ l.map Prod.snd, 0 ≤ w) (hk1 : 1 ≤ k) (hkl : k ≤ l.length)
    (hq : q ≤ cum + ((l.take k).map Prod.snd).sum) :
    ∃ t, pickLoop l q cum = some t ∧ t ∈ (l.take k).map Prod.fst := by
  induction l generalizing k cum with
  | nil => simp at hkl; omega
  | cons x xs ih =>
      rw [pickLoop]
      by_cases hxq : q ≤ cum + x.2
      · refine ⟨x.1, if_pos hxq, ?_⟩
        obtain ⟨k', rfl⟩ : ∃ k', k = k' + 1 := ⟨k - 1, by omega⟩
        simp
      · rw [if_neg hxq]
        obtain ⟨k', rfl⟩ : ∃ k', k = k' + 1 := ⟨k - 1, by omega⟩
        simp only [List.take_succ_cons, List.map_cons, List.sum_cons] at hq
        have hk'1 : 1 ≤ k' := by
          by_contra hc
          have : k' = 0 := by omega
          subst this
          simp at hq
          exact hxq (by linarith)
        have hw' : ∀ w ∈ xs.map Prod.snd, 0 ≤ w := by
          intro w hwmem
          exact hw w (by simp [hwmem])
        obtain ⟨t, ht, htmem⟩ := ih k' (cum + x.2) hw' hk'1
          (by simpa using hkl) (by linarith)
        refine ⟨t, ht, ?_⟩
        rw [List.take_succ_cons, List.map_cons]
        exact List.mem_cons_of_mem _ htmem

/-- All `TOPIC_WEIGHTS` entries are non-negative. -/
theorem topicWeights_nonneg : ∀ w ∈ topicWeights.map Prod.snd, 0 ≤ w := by
  intro w hw
  simp [topicWeights] at hw
  rcases hw with rfl | rfl | rfl | rfl | rfl | rfl | rfl | rfl | rfl | rfl |
    rfl | rfl | rfl | rfl | rfl | rfl | rfl | rfl | rfl | rfl | rfl | rfl |
    rfl | rfl | rfl | rfl | rfl | rfl | rfl | rfl | rfl | rfl <;> norm_num

/-- The weight topics are all topics of the catalog. -/
theorem topicWeights_sub : ∀ t ∈ topicWeights.map Prod.fst, t ∈ templateTopicKeys := by
  decide
/-! ### Claim theorems: fingerprint and topic picker -/

/-- C5: the Post Store's content fingerprint
(`TemplatePostManager.generateContentHash`) is a 256-bit (64 hex character)
SHA-256 digest of the case-folded, trimmed content: any two strings with
equal lower-cased trimmed forms get equal fingerprints, and equal inputs
always give equal output. -/
theorem c5_fingerprintNormalized :
    (∀ s t : String, jsNormalize s = jsNormalize t →
      generateContentHash s = generateContentHash t) ∧
    (∀ s : String, (generateContentHash s).length = 64) :=
  ⟨fun s t h => by unfold generateContentHash; rw [h],
   fun s => sha256Hex_length _⟩

/-- C5 counterexample: the Template Expander's own fingerprint
(`TemplatePostGenerator.generateContentHash`, `post-generator.ts:854-856`)
hashes the raw content without case folding or trimming, so two strings
with equal lower-cased trimmed forms can get different fingerprints. -/
theorem c5_cx_generatorHashRaw :
    jsNormalize "A" = jsNormalize "a" ∧
      generatorContentHash "A" ≠ generatorContentHash "a" := by
  exact ⟨by decide, by decide⟩

/-- C5 witness at concrete inputs. -/
theorem c5_fingerprintNormalized_witness :
    jsNormalize "  Test POST one. " = jsNormalize "test post one." ∧
      generateContentHash "  Test POST one. " = generateContentHash "test post one." :=
  ⟨by decide, c5_fingerprintNormalized.1 _ _ (by decide)⟩

/-- C8: `getRandomTopic` is total and never returns `undefined`: for every
draw it returns a topic of the catalog; it is exactly the first entry of
the cumulative-weight table (in insertion order) whose cumulative weight
has reached the draw; and a draw left unmatched by the walk falls back to
the first topic in iteration order (`battle_wisdom`). -/
theorem c8_weightedPickTotal :
    (∀ q : ℚ, getRandomTopicQ q ∈ templateTopicKeys) ∧
    (∀ q : ℚ, getRandomTopicQ q = (pickLoop topicWeights q 0).getD "battle_wisdom") ∧
    (∀ q : ℚ, pickLoop topicWeights q 0 =
      ((cumulTable topicWeights 0).find? (fun p => decide (q ≤ p.2))).map Prod.fst) ∧
    templateTopicKeys.getD 0 "" = "battle_wisdom" := by
  have hfb : ∀ q : ℚ, getRandomTopicQ q = (pickLoop topicWeights q 0).getD "battle_wisdom" := by
    intro q
    unfold getRandomTopicQ
    cases h : pickLoop topicWeights q 0 with
    | some t => simp
    | none => rfl
  refine ⟨?_, hfb, fun q => pickLoop_eq_find _ _ _, by decide⟩
  intro q
  rw [hfb q]
  cases h : pickLoop topicWeights q 0 with
  | some t => exact topicWeights_sub t (pickLoop_mem _ _ _ _ h)
  | none => decide

/-- C9: with the compiled-in `TOPIC_WEIGHTS` read as exact rationals, the
cumulative weight reaches exactly `1` at the 15th entry
(`everyday_wisdom`), so every draw in `[0,1)` is answered by one of the
first 15 topics in insertion order; the 17 `very light rotation` topics
and the fallback branch are unreachable. -/
theorem c9_cumulativeReachesOne :
    ((topicWeights.take 15).map Prod.snd).sum = 1 ∧
    (topicWeights.map Prod.fst).getD 14 "" = "everyday_wisdom" ∧
    ∀ q : ℚ, 0 ≤ q → q < 1 →
      (pickLoop topicWeights q 0).isSome = true ∧
      getRandomTopicQ q ∈ (topicWeights.take 15).map Prod.fst ∧
      getRandomTopicQ q ∉ (topicWeights.drop 15).map Prod.fst := by
  have hsum : ((topicWeights.take 15).map Prod.snd).sum = 1 := by
    norm_num [topicWeights]
  refine ⟨hsum, by decide, ?_⟩
  intro q _ hq1
  obtain ⟨t, ht, hmem⟩ := pickLoop_within topicWeights 15 q 0 topicWeights_nonneg
    (by norm_num) (by decide) (by rw [hsum]; linarith)
  have hrt : getRandomTopicQ q = t := by
    unfold getRandomTopicQ
    rw [ht]
  have hdisj : ∀ u ∈ (topicWeights.take 15).map Prod.fst,
      u ∉ (topicWeights.drop 15).map Prod.fst := by decide
  refine ⟨by rw [ht]; rfl, by rw [hrt]; exact hmem, by rw [hrt]; exact hdisj t hmem⟩

/-- C9 witness at the concrete draw `0`. -/
theorem c9_cumulativeReachesOne_witness :
    (0 : ℚ) ≤ 0 ∧ (0 : ℚ) < 1 ∧
      ((pickLoop topicWeights 0 0).isSome = true ∧
       getRandomTopicQ 0 ∈ (topicWeights.take 15).map Prod.fst ∧
       getRandomTopicQ 0 ∉ (topicWeights.drop 15).map Prod.fst) :=
  ⟨le_refl 0, zero_lt_one, c9_cumulativeReachesOne.2.2 0 (le_refl 0) zero_lt_one⟩

/-! ### Claim C2: a second `markPostAsUsed` call -/

/-- What a `markPostAsUsed` call on an already-used (or absent) row does:
`bot_stats` untouched (the trigger only fires on a `0 → 1` transition, so
`remaining_posts` is never double-decremented), no error and no row added
or removed, rows not matching `(id, bot_id)` unchanged — but a matching
already-used row has its `used_at` (and `updated_at`) refreshed to the
time of this call. -/
def MarkUsedAgainOutcome (db : DB) (botId : String) (pid t2 : Nat) : Prop :=
  (markPostAsUsed botId pid t2 db).botStats = db.botStats ∧
  (markPostAsUsed botId pid t2 db).postLogs = db.postLogs ∧
  (markPostAsUsed botId pid t2 db).posts.length = db.posts.length ∧
  (∀ r' ∈ (markPostAsUsed botId pid t2 db).posts,
    r'.id = pid ∧ r'.bot_id = botId → r'.used = true ∧ r'.used_at = some t2) ∧
  (∀ r ∈ db.posts, ¬(r.id = pid ∧ r.bot_id = botId) →
    r ∈ (markPostAsUsed botId pid t2 db).posts) ∧
  ((∀ r ∈ db.posts, ¬(r.id = pid ∧ r.bot_id = botId)) →
    (markPostAsUsed botId pid t2 db).posts = db.posts)

/-- C2 (amended): when every row matching `(pid, botId)` is already used
(including the case of no matching row), a further `markPostAsUsed` call
is a no-op on `bot_stats` (no double-decrement), not an error, leaves
`used = true`, and leaves non-matching rows unchanged — but refreshes the
matching row's `used_at` to the new call's timestamp instead of keeping
the first call's. -/
theorem c2_markUsedSecondCall (db : DB) (botId : String) (pid t2 : Nat)
    (h : ∀ r ∈ db.posts, r.id = pid ∧ r.bot_id = botId → r.used = true) :
    MarkUsedAgainOutcome db botId pid t2 := by
  have hfired :
      db.posts.countP (fun r => r.id == pid && r.bot_id == botId && r.used == false) = 0 := by
    rw [List.countP_eq_zero]
    intro r hr hcond
    rw [Bool.and_eq_true, Bool.and_eq_true, beq_iff_eq, beq_iff_eq, beq_iff_eq] at hcond
    obtain ⟨⟨h1, h2⟩, h3⟩ := hcond
    have hu := h r hr ⟨h1, h2⟩
    rw [hu] at h3
    exact Bool.noConfusion h3
  have hstats : (markPostAsUsed botId pid t2 db).botStats = db.botStats := by
    simp only [markPostAsUsed]
    rw [hfired]
    simp
  have hposts : (markPostAsUsed botId pid t2 db).posts = db.posts.map (fun r =>
      if r.id == pid && r.bot_id == botId then
        { r with used := true, used_at := some t2, updated_at := t2 }
      else r) := by
    simp only [markPostAsUsed]
  refine ⟨hstats, by simp only [markPostAsUsed], by simp [hposts], ?_, ?_, ?_⟩
  · intro r' hr' hm'
    rw [hposts] at hr'
    obtain ⟨r, hr, hmap⟩ := List.mem_map.mp hr'
    by_cases hm : (r.id == pid && r.bot_id == botId) = true
    · rw [if_pos hm] at hmap
      rw [← hmap]
      exact ⟨rfl, rfl⟩
    · rw [if_neg hm] at hmap
      subst hmap
      exfalso
      apply hm
      rw [Bool.and_eq_true, beq_iff_eq, beq_iff_eq]
      exact ⟨hm'.1, hm'.2⟩
  · intro r hr hnm
    rw [hposts]
    refine List.mem_map.mpr ⟨r, hr, ?_⟩
    rw [if_neg]
    rw [Bool.and_eq_true, beq_iff_eq, beq_iff_eq]
    exact hnm
  · intro hall
    rw [hposts]
    have hid : ∀ r ∈ db.posts, (if r.id == pid && r.bot_id == botId then
        { r with used := true, used_at := some t2, updated_at := t2 } else r) = r := by
      intro r hr
      rw [if_neg]
      rw [Bool.and_eq_true, beq_iff_eq, beq_iff_eq]
      exact hall r hr
    calc db.posts.map _ = db.posts.map id := List.map_congr_left hid
      _ = db.posts := List.map_id _

/-- A one-post store (unused post, consistent stats) for the C2 scenario. -/
def c2DB : DB :=
  ⟨[⟨1, "x", "bot-a", none, false, none, 0, 0, none, none, none, none⟩], [],
   [⟨"bot-a", 1, 0, 1, none, none, 0, 0, 0, 0⟩], 2, 1⟩

/-- C2 counterexample: after marking post 1 used at time 10, a second
`markPostAsUsed` call at time 20 refreshes `used_at` from `some 10` to
`some 20`; the claim's `usedAt` equal to the first call's timestamp fails
(the SQL has no `AND used = 0` guard on the `used_at` assignment). -/
theorem c2_cx_usedAtRefreshed :
    ((markPostAsUsed "bot-a" 1 10 c2DB).posts.map (fun r => r.used_at)) = [some 10] ∧
    ((markPostAsUsed "bot-a" 1 20 (markPostAsUsed "bot-a" 1 10 c2DB)).posts.map
      (fun r => r.used_at)) = [some 20] ∧
    (some 20 : Option Nat) ≠ some 10 :=
  ⟨by decide, by decide, by decide⟩

/-- The C2 store after the first `markPostAsUsed` call at time 10. -/
def c2DBUsed : DB := markPostAsUsed "bot-a" 1 10 c2DB

/-- C2 witness: the amended theorem applied to the store in which post 1
is already used. -/
theorem c2_markUsedSecondCall_witness :
    (∀ r ∈ c2DBUsed.posts, r.id = 1 ∧ r.bot_id = "bot-a" → r.used = true) ∧
      MarkUsedAgainOutcome c2DBUsed "bot-a" 1 20 :=
  ⟨by decide, c2_markUsedSecondCall c2DBUsed "bot-a" 1 20 (by decide)⟩

/-! ### Claim C7: `getNextPost` -/

/-- `selectOldest` returns `none` exactly on the empty list. -/
theorem selectOldest_eq_none (l : List PostRow) :
    selectOldest l = none ↔ l = [] := by
  cases l with
  | nil => simp [selectOldest]
  | cons x xs =>
      simp only [selectOldest]
      cases selectOldest xs with
      | none => simp
      | some b =>
          by_cases h : b.created_at < x.created_at <;> simp [h]

/-- On a list whose ids are strictly increasing in scan order, the scan
keeps exactly the row that is minimal in the lexicographic
`(created_at, id)` order. -/
theorem selectOldest_lex : ∀ l : List PostRow,
    l.Pairwise (fun a b => a.id < b.id) → ∀ r, selectOldest l = some r →
    r ∈ l ∧ ∀ r' ∈ l, r' ≠ r →
      (r.created_at < r'.created_at ∨
        (r.created_at = r'.created_at ∧ r.id < r'.id)) := by
  intro l
  induction l with
  | nil => intro _ r hr; simp [selectOldest] at hr
  | cons x xs ih =>
      intro hp r hr
      rw [selectOldest] at hr
      rw [List.pairwise_cons] at hp
      cases hsel : selectOldest xs with
      | none =>
          have hxs : xs = [] := (selectOldest_eq_none xs).mp hsel
          subst hxs
          rw [hsel] at hr
          simp only [Option.some.injEq] at hr
          subst hr
          exact ⟨by simp, by simp⟩
      | some b =>
          rw [hsel] at hr
          dsimp only at hr
          obtain ⟨hbmem, hblex⟩ := ih hp.2 b hsel
          have hbmin : ∀ r' ∈ xs, b.created_at ≤ r'.created_at := by
            intro r' hr'
            by_cases hrb : r' = b
            · subst hrb; exact le_refl _
            · rcases hblex r' hr' hrb with hlt | ⟨heq, _⟩
              · exact le_of_lt hlt
              · exact le_of_eq heq
          by_cases hlt : b.created_at < x.created_at
          · rw [if_pos hlt] at hr
            simp only [Option.some.injEq] at hr
            subst hr
            refine ⟨List.mem_cons_of_mem _ hbmem, ?_⟩
            intro r' hr' hne
            rcases List.mem_cons.mp hr' with rfl | hr'xs
            · exact Or.inl hlt
            · exact hblex r' hr'xs hne
          · rw [if_neg hlt] at hr
            simp only [Option.some.injEq] at hr
            subst hr
            have hxle : x.created_at ≤ b.created_at := le_of_not_lt hlt
            refine ⟨List.mem_cons_self _ _, ?_⟩
            intro r' hr' hne
            rcases List.mem_cons.mp hr' with rfl | hr'xs
            · exact absurd rfl hne
            · have hle : x.created_at ≤ r'.created_at :=
                le_trans hxle (hbmin r' hr'xs)
              rcases lt_or_eq_of_le hle with hlt' | heq'
              · exact Or.inl hlt'
              · exact Or.inr ⟨heq', hp.1 r' hr'xs⟩

/-- What C7 claims of `getNextPost`: `none` exactly when the bot has no
unused row, and otherwise the unique unused row of the bot minimal in
`(created_at, id)` lexicographic order (ties on `created_at` broken by the
smaller id, the row met first in rowid scan order). -/
def NextPostSpec (botId : String) (db : DB) : Prop :=
  (getNextPost botId db = none ↔ ∀ r ∈ db.posts, r.bot_id = botId → r.used = true) ∧
  (∀ r, getNextPost botId db = some r →
    r ∈ db.posts ∧ r.bot_id = botId ∧ r.used = false ∧
    ∀ r' ∈ db.posts, r'.bot_id = botId → r'.used = false → r' ≠ r →
      (r.created_at < r'.created_at ∨
        (r.created_at = r'.created_at ∧ r.id < r'.id)))

/-- C7: on a store whose rows are in strictly increasing id order (the
rowid order `AUTOINCREMENT` maintains), `getNextPost` returns the oldest
unused row of the bot with `created_at` ties broken by ascending id, and
`none` exactly when the bot has no unused row. -/
theorem c7_getNextPostOldest (botId : String) (db : DB)
    (hp : db.posts.Pairwise (fun a b => a.id < b.id)) :
    NextPostSpec botId db := by
  have hfil : ∀ r : PostRow,
      r ∈ db.posts.filter (fun r => r.bot_id == botId && r.used == false) ↔
      (r ∈ db.posts ∧ r.bot_id = botId ∧ r.used = false) := by
    intro r
    rw [List.mem_filter]
    simp [and_assoc]
  constructor
  · rw [getNextPost, selectOldest_eq_none, List.filter_eq_nil_iff]
    constructor
    · intro hnone r hr hbot
      by_contra hused
      have := hnone r hr
      simp [hbot, hused] at this
    · intro hall r hr
      rw [Bool.and_eq_true, beq_iff_eq, beq_iff_eq]
      intro hcond
      exact absurd (hall r hr hcond.1) (by simp [hcond.2])
  · intro r hr
    rw [getNextPost] at hr
    have hpf : (db.posts.filter (fun r => r.bot_id == botId && r.used == false)).Pairwise
        (fun a b => a.id < b.id) := hp.sublist (List.filter_sublist _)
    obtain ⟨hmem, hlex⟩ := selectOldest_lex _ hpf r hr
    obtain ⟨hmem', hbot, hused⟩ := (hfil r).mp hmem
    refine ⟨hmem', hbot, hused, ?_⟩
    intro r' hr' hbot' hused' hne
    exact hlex r' ((hfil r').mpr ⟨hr', hbot', hused'⟩) hne

/-- A three-row store: two unused rows sharing `created_at = 5` (ids 1, 2)
and one older used row. -/
def c7DB : DB :=
  ⟨[⟨1, "u", "bot-a", none, false, none, 5, 5, none, none, none, none⟩,
    ⟨2, "v", "bot-a", none, false, none, 5, 5, none, none, none, none⟩,
    ⟨3, "w", "bot-a", none, true, some 9, 1, 9, none, none, none, none⟩], [],
   [⟨"bot-a", 3, 1, 2, some 9, none, 0, 0, 0, 9⟩], 4, 1⟩

/-- C7 witness: the theorem applied to `c7DB`, plus the concrete
observation that the `created_at` tie between ids 1 and 2 goes to id 1. -/
theorem c7_getNextPostOldest_witness :
    (c7DB.posts.Pairwise (fun a b => a.id < b.id)) ∧ NextPostSpec "bot-a" c7DB ∧
      (getNextPost "bot-a" c7DB).map (fun r => r.id) = some 1 :=
  ⟨by decide, c7_getNextPostOldest "bot-a" c7DB (by decide), by decide⟩

/-! ### Batch insert: structure lemmas for `storePostsGo` -/

/-- The schema invariant `UNIQUE(bot_id, content_hash)`: no two rows of one
bot share a (non-NULL) fingerprint. -/
def fingerprintsNodup (posts : List PostRow) : Prop :=
  posts.Pairwise (fun a b => a.bot_id = b.bot_id →
    ∀ hsh, a.content_hash = some hsh → b.content_hash ≠ some hsh)

/-- Project the inserted/skipped counters out of a `storePostsGo` result. -/
def storeCounts : Except String (DB × Nat × Nat) → Option (Nat × Nat)
  | .ok (_, i, s) => some (i, s)
  | .error _ => none

/-- Project the bot's total row count out of a `storePostsGo` result. -/
def storeTotal (botId : String) : Except String (DB × Nat × Nat) → Option Nat
  | .ok (d, _, _) => some ((getPostCount botId d).total)
  | .error _ => none

/-- The number of batch items the spec says get inserted: those whose
fingerprint neither already exists for the bot nor equals the fingerprint
of an earlier inserted batch item (`acc`). -/
def insSpecGo (hash : String → String) (botId : String) (posts0 : List PostRow) :
    List PostGenerationResult → List String → Nat
  | [], _ => 0
  | p :: ps, acc =>
      let h := hash p.content
      if hashExistsForBot posts0 botId h || acc.any (fun x => x == h) then
        insSpecGo hash botId posts0 ps acc
      else
        insSpecGo hash botId posts0 ps (h :: acc) + 1

/-- A fingerprint present for the bot stays present after rows are
appended. -/
theorem hashExistsForBot_append_left (posts rows : List PostRow) (botId h : String)
    (hx : hashExistsForBot posts botId h = true) :
    hashExistsForBot (posts ++ rows) botId h = true := by
  rw [hashExistsForBot, List.any_append]
  rw [hashExistsForBot] at hx
  rw [hx]
  rfl

/-- After `insertPost` the inserted fingerprint is present for the bot. -/
theorem hashExistsForBot_insert (db : DB) (botId : String)
    (p : PostGenerationResult) (h : String) (now : Nat) :
    hashExistsForBot (insertPost botId p h now db).posts botId h = true := by
  simp [insertPost, hashExistsForBot]

/-- On a single-bot store a globally present fingerprint is present for the
bot. -/
theorem hashExistsGlobal_to_bot (posts : List PostRow) (botId h : String)
    (hsb : ∀ r ∈ posts, r.bot_id = botId)
    (hg : hashExistsGlobal posts h = true) :
    hashExistsForBot posts botId h = true := by
  rw [hashExistsGlobal, List.any_eq_true] at hg
  obtain ⟨r, hr, hrh⟩ := hg
  rw [hashExistsForBot, List.any_eq_true]
  refine ⟨r, hr, ?_⟩
  rw [Bool.and_eq_true, beq_iff_eq]
  exact ⟨hsb r hr, hrh⟩

/-- The posts list `insertPost` produces. -/
theorem insertPost_posts (db : DB) (botId : String) (p : PostGenerationResult)
    (h : String) (now : Nat) :
    (insertPost botId p h now db).posts = db.posts ++
      [{ id := db.nextPostId, content := p.content, bot_id := botId,
         category := none, used := false, used_at := none, created_at := now,
         updated_at := now, generation_cost := some p.cost,
         generation_tokens := some p.tokens_used,
         generation_model := some p.model, content_hash := some h }] := rfl

/-- On a store whose rows all belong to `botId`, the batch transaction
never aborts: it returns a store extended by `a` fresh unused rows of the
bot, `a + b = |batch|` with `b` the skipped count, logs/stats untouched,
and afterwards every batch item's fingerprint is present for the bot. -/
theorem storePostsGo_ok (hash : String → String) (botId : String) (now : Nat) :
    ∀ (ps : List PostGenerationResult) (db : DB) (ins skip : Nat),
    (∀ r ∈ db.posts, r.bot_id = botId) →
    ∃ d a b, storePostsGo hash botId now ps db ins skip = .ok (d, ins + a, skip + b) ∧
      a + b = ps.length ∧
      (∃ rows, d.posts = db.posts ++ rows ∧ rows.length = a ∧
        ∀ r ∈ rows, r.bot_id = botId ∧ r.used = false ∧ r.created_at = now) ∧
      d.postLogs = db.postLogs ∧ d.botStats = db.botStats ∧
      d.nextLogId = db.nextLogId ∧
      (∀ p ∈ ps, hashExistsForBot d.posts botId (hash p.content) = true) := by
  intro ps
  induction ps with
  | nil =>
      intro db ins skip _
      exact ⟨db, 0, 0, by simp [storePostsGo], by simp, ⟨[], by simp⟩, rfl, rfl, rfl,
        by simp⟩
  | cons p ps ih =>
      intro db ins skip hsb
      rw [storePostsGo]
      by_cases hdup : hashExistsForBot db.posts botId (hash p.content) = true
      · rw [if_pos hdup]
        obtain ⟨d, a, b, heq, hab, ⟨rows, hrows, hlen, hrprop⟩, hlogs, hstats, hnli, hpres⟩ :=
          ih db ins (skip + 1) hsb
        have hsk : skip + 1 + b = skip + (b + 1) := by omega
        rw [hsk] at heq
        refine ⟨d, a, b + 1, heq, by rw [List.length_cons]; omega,
          ⟨rows, hrows, hlen, hrprop⟩, hlogs, hstats, hnli, ?_⟩
        intro q hq
        rcases List.mem_cons.mp hq with rfl | hq'
        · rw [hrows]
          exact hashExistsForBot_append_left _ _ _ _ hdup
        · exact hpres q hq'
      · rw [if_neg hdup]
        have hglob : hashExistsGlobal db.posts (hash p.content) = false := by
          by_contra hg
          rw [Bool.not_eq_false] at hg
          exact hdup (hashExistsGlobal_to_bot _ _ _ hsb hg)
        rw [hglob]
        simp only [Bool.false_eq_true, if_false]
        have hsb1 : ∀ r ∈ (insertPost botId p (hash p.content) now db).posts,
            r.bot_id = botId := by
          intro r hr
          rw [insertPost_posts] at hr
          rcases List.mem_append.mp hr with hr' | hr'
          · exact hsb r hr'
          · rw [List.mem_singleton.mp hr']
        obtain ⟨d, a, b, heq, hab, ⟨rows, hrows, hlen, hrprop⟩, hlogs, hstats, hnli, hpres⟩ :=
          ih (insertPost botId p (hash p.content) now db) (ins + 1) skip hsb1
        have hin : ins + 1 + a = ins + (a + 1) := by omega
        rw [hin] at heq
        have hpresIns : hashExistsForBot d.posts botId (hash p.content) = true := by
          rw [hrows]
          exact hashExistsForBot_append_left _ _ _ _
            (hashExistsForBot_insert db botId p (hash p.content) now)
        rw [insertPost_posts, List.append_assoc] at hrows
        refine ⟨d, a + 1, b, heq, by rw [List.length_cons]; omega,
          ⟨_, hrows, by simp [hlen], ?_⟩, hlogs, hstats, hnli, ?_⟩
        · intro r hr
          rcases List.mem_cons.mp hr with rfl | hr'
          · exact ⟨rfl, rfl, rfl⟩
          · exact hrprop r hr'
        · intro q hq
          rcases List.mem_cons.mp hq with rfl | hq'
          · exact hpresIns
          · exact hpres q hq'

/-- Without a single-bot hypothesis a committed batch still only appends
rows: on `.ok`, the new posts list is the old one plus fresh unused rows,
logs and stats are untouched, and every batch item's fingerprint is
afterwards present for the bot. -/
theorem storePostsGo_ok_shape (hash : String → String) (botId : String) (now : Nat) :
    ∀ (ps : List PostGenerationResult) (db : DB) (ins skip : Nat) (d : DB) (i s : Nat),
    storePostsGo hash botId now ps db ins skip = .ok (d, i, s) →
    (∃ rows, d.posts = db.posts ++ rows ∧
      ∀ r ∈ rows, r.bot_id = botId ∧ r.used = false ∧ r.created_at = now) ∧
    d.postLogs = db.postLogs ∧ d.botStats = db.botStats ∧
    d.nextLogId = db.nextLogId ∧
    (∀ p ∈ ps, hashExistsForBot d.posts botId (hash p.content) = true) := by
  intro ps
  induction ps with
  | nil =>
      intro db ins skip d i s heq
      rw [storePostsGo] at heq
      have hd : db = d := by
        injection heq with h1
        injection h1 with h2 h3
      subst hd
      exact ⟨⟨[], by simp⟩, rfl, rfl, rfl, by simp⟩
  | cons p ps ih =>
      intro db ins skip d i s heq
      rw [storePostsGo] at heq
      by_cases hdup : hashExistsForBot db.posts botId (hash p.content) = true
      · rw [if_pos hdup] at heq
        obtain ⟨⟨rows, hrows, hrprop⟩, hlogs, hstats, hnli, hpres⟩ := ih _ _ _ _ _ _ heq
        refine ⟨⟨rows, hrows, hrprop⟩, hlogs, hstats, hnli, ?_⟩
        intro q hq
        rcases List.mem_cons.mp hq with rfl | hq'
        · rw [hrows]
          exact hashExistsForBot_append_left _ _ _ _ hdup
        · exact hpres q hq'
      · rw [if_neg hdup] at heq
        by_cases hglob : hashExistsGlobal db.posts (hash p.content) = true
        · rw [hglob] at heq
          simp at heq
        · rw [Bool.not_eq_true] at hglob
          rw [hglob] at heq
          simp only [Bool.false_eq_true, if_false] at heq
          obtain ⟨⟨rows, hrows, hrprop⟩, hlogs, hstats, hnli, hpres⟩ := ih _ _ _ _ _ _ heq
          have hpresIns : hashExistsForBot d.posts botId (hash p.content) = true := by
            rw [hrows]
            exact hashExistsForBot_append_left _ _ _ _
              (hashExistsForBot_insert db botId p (hash p.content) now)
          rw [insertPost_posts, List.append_assoc] at hrows
          refine ⟨⟨_, hrows, ?_⟩, hlogs, hstats, hnli, ?_⟩
          · intro r hr
            rcases List.mem_cons.mp hr with rfl | hr'
            · exact ⟨rfl, rfl, rfl⟩
            · exact hrprop r hr'
          · intro q hq
            rcases List.mem_cons.mp hq with rfl | hq'
            · exact hpresIns
            · exact hpres q hq'

/-- The transaction inserts exactly the items the spec marks as new
(`insSpecGo`): induction invariant over the accumulated inserted
fingerprints. -/
theorem storePostsGo_insCount (hash : String → String) (botId : String) (now : Nat)
    (posts0 : List PostRow) :
    ∀ (ps : List PostGenerationResult) (db : DB) (acc : List String) (ins skip : Nat),
    (∀ r ∈ db.posts, r.bot_id = botId) →
    (∀ h', hashExistsForBot db.posts botId h' =
      (hashExistsForBot posts0 botId h' || acc.any (fun x => x == h'))) →
    ∃ d b, storePostsGo hash botId now ps db ins skip =
      .ok (d, ins + insSpecGo hash botId posts0 ps acc, b) := by
  intro ps
  induction ps with
  | nil =>
      intro db acc ins skip _ _
      exact ⟨db, skip, by simp [storePostsGo, insSpecGo]⟩
  | cons p ps ih =>
      intro db acc ins skip hsb hacc
      rw [storePostsGo, insSpecGo]
      have hcur := hacc (hash p.content)
      by_cases hdup : hashExistsForBot db.posts botId (hash p.content) = true
      · rw [if_pos hdup]
        rw [hdup] at hcur
        rw [if_pos hcur.symm]
        exact ih db acc ins (skip + 1) hsb hacc
      · rw [if_neg hdup]
        rw [Bool.not_eq_true] at hdup
        rw [hdup] at hcur
        have hglob : hashExistsGlobal db.posts (hash p.content) = false := by
          by_contra hg
          rw [Bool.not_eq_false] at hg
          rw [hashExistsGlobal_to_bot _ _ _ hsb hg] at hdup
          exact Bool.noConfusion hdup
        rw [hglob]
        simp only [Bool.false_eq_true, if_false]
        rw [if_neg (show ¬((hashExistsForBot posts0 botId (hash p.content) ||
          acc.any fun x => x == hash p.content) = true) from by
            rw [← hcur]; exact Bool.false_ne_true)]
        have hsb1 : ∀ r ∈ (insertPost botId p (hash p.content) now db).posts,
            r.bot_id = botId := by
          intro r hr
          rw [insertPost_posts] at hr
          rcases List.mem_append.mp hr with hr' | hr'
          · exact hsb r hr'
          · rw [List.mem_singleton.mp hr']
        have hacc1 : ∀ h', hashExistsForBot (insertPost botId p (hash p.content) now db).posts
            botId h' = (hashExistsForBot posts0 botId h' ||
              ((hash p.content :: acc).any (fun x => x == h'))) := by
          intro h'
          by_cases hh : hash p.content = h'
          · subst hh
            simp [insertPost_posts, hashExistsForBot, List.any_append, hacc]
          · have hx : (hash p.content == h') = false := beq_eq_false_iff_ne.mpr hh
            simp [insertPost_posts, hashExistsForBot, List.any_append, List.any_cons,
              hx, hh]
            simpa [hashExistsForBot] using hacc h'
        obtain ⟨d, b, hres⟩ := ih (insertPost botId p (hash p.content) now db)
          (hash p.content :: acc) (ins + 1) skip hsb1 hacc1
        have harith : ins + 1 + insSpecGo hash botId posts0 ps (hash p.content :: acc) =
            ins + (insSpecGo hash botId posts0 ps (hash p.content :: acc) + 1) := by omega
        rw [harith] at hres
        exact ⟨d, b, hres⟩

/-- A committed batch preserves the per-bot fingerprint uniqueness
invariant. -/
theorem storePostsGo_nodup (hash : String → String) (botId : String) (now : Nat) :
    ∀ (ps : List PostGenerationResult) (db : DB) (ins skip : Nat) (d : DB) (i s : Nat),
    storePostsGo hash botId now ps db ins skip = .ok (d, i, s) →
    fingerprintsNodup db.posts → fingerprintsNodup d.posts := by
  intro ps
  induction ps with
  | nil =>
      intro db ins skip d i s heq hnd
      rw [storePostsGo] at heq
      have hd : db = d := by injection heq with h1; injection h1 with h2 h3
      exact hd ▸ hnd
  | cons p ps ih =>
      intro db ins skip d i s heq hnd
      rw [storePostsGo] at heq
      by_cases hdup : hashExistsForBot db.posts botId (hash p.content) = true
      · rw [if_pos hdup] at heq
        exact ih _ _ _ _ _ _ heq hnd
      · rw [if_neg hdup] at heq
        by_cases hglob : hashExistsGlobal db.posts (hash p.content) = true
        · rw [hglob] at heq
          simp at heq
        · rw [Bool.not_eq_true] at hglob
          rw [hglob] at heq
          simp only [Bool.false_eq_true, if_false] at heq
          refine ih _ _ _ _ _ _ heq ?_
          rw [fingerprintsNodup, insertPost_posts, List.pairwise_append]
          refine ⟨hnd, List.pairwise_singleton _ _, ?_⟩
          intro a ha b hb hab hsh hahash
          rw [List.mem_singleton.mp hb]
          intro hbh
          simp only [Option.some.injEq] at hbh
          apply hdup
          rw [hashExistsForBot, List.any_eq_true]
          refine ⟨a, ha, ?_⟩
          rw [Bool.and_eq_true, beq_iff_eq, beq_iff_eq]
          have hbot : a.bot_id = botId := by
            rw [List.mem_singleton.mp hb] at hab
            exact hab
          exact ⟨hbot, by rw [hahash, hbh]⟩

/-- When every batch item's fingerprint is already present for the bot, the
whole batch is skipped and the store is returned unchanged. -/
theorem storePostsGo_allPresent (hash : String → String) (botId : String) (now : Nat) :
    ∀ (ps : List PostGenerationResult) (db : DB) (ins skip : Nat),
    (∀ p ∈ ps, hashExistsForBot db.posts botId (hash p.content) = true) →
    storePostsGo hash botId now ps db ins skip = .ok (db, ins, skip + ps.length) := by
  intro ps
  induction ps with
  | nil => intro db ins skip _; simp [storePostsGo]
  | cons p ps ih =>
      intro db ins skip hall
      rw [storePostsGo]
      rw [if_pos (hall p (List.mem_cons_self _ _))]
      rw [ih db ins (skip + 1) (fun q hq => hall q (List.mem_cons_of_mem _ hq))]
      have h3 : skip + 1 + ps.length = skip + (p :: ps).length := by
        rw [List.length_cons]; omega
      rw [h3]

/-! ### Claim C4: batch insert with duplicate skipping -/

/-- The C4 batch-insert contract: the transaction commits (never aborted by
a duplicate), splits the batch into `a` inserted and `b` skipped items,
inserts exactly the items whose fingerprint is new (not in the store for
this bot, nor produced by an earlier inserted item of the batch), appends
exactly `a` rows of this bot, raises the bot's total count by `a`, and
preserves the per-bot fingerprint uniqueness invariant. -/
def BatchInsertOutcome (hash : String → String) (botId : String) (now : Nat)
    (db : DB) (ps : List PostGenerationResult) : Prop :=
  ∃ d a b,
    storePostsGo hash botId now ps db 0 0 = .ok (d, a, b) ∧
    a + b = ps.length ∧
    a = insSpecGo hash botId db.posts ps [] ∧
    (∃ rows, d.posts = db.posts ++ rows ∧ rows.length = a ∧
      ∀ r ∈ rows, r.bot_id = botId ∧ r.used = false) ∧
    (getPostCount botId d).total = (getPostCount botId db).total + a ∧
    (fingerprintsNodup db.posts → fingerprintsNodup d.posts)

/-- C4: on a single-bot store, `storePosts` skips exactly the
already-fingerprinted items, inserts the rest inside the one transaction,
never aborts on a duplicate, and preserves the uniqueness invariant. -/
theorem c4_batchInsertDedup (hash : String → String) (botId : String) (now : Nat)
    (db : DB) (ps : List PostGenerationResult)
    (hsb : ∀ r ∈ db.posts, r.bot_id = botId) :
    BatchInsertOutcome hash botId now db ps := by
  obtain ⟨d, a, b, heq, hab, ⟨rows, hrows, hlen, hrprop⟩, -, -, -, -⟩ :=
    storePostsGo_ok hash botId now ps db 0 0 hsb
  simp only [Nat.zero_add] at heq
  obtain ⟨d', b', heq'⟩ :=
    storePostsGo_insCount hash botId now db.posts ps db [] 0 0 hsb (fun h' => by simp)
  rw [heq] at heq'
  have ha : a = insSpecGo hash botId db.posts ps [] := by
    injection heq' with h1
    have h2 := congrArg (fun x : DB × Nat × Nat => x.2.1) h1
    simpa using h2
  refine ⟨d, a, b, heq, hab, ha,
    ⟨rows, hrows, hlen, fun r hr => ⟨(hrprop r hr).1, (hrprop r hr).2.1⟩⟩, ?_, ?_⟩
  · simp only [getPostCount]
    rw [hrows, List.countP_append]
    have hcnt : rows.countP (fun r => r.bot_id == botId) = rows.length := by
      rw [List.countP_eq_length]
      intro r hr
      rw [beq_iff_eq]
      exact (hrprop r hr).1
    rw [hcnt, hlen]
  · exact storePostsGo_nodup hash botId now ps db 0 0 d a b heq

/-- An injective toy hash for the C4 witness scenario. -/
def c4Hash : String → String := fun s => "h" ++ s

/-- A store holding three fingerprinted rows of `bot-a`. -/
def c4DB : DB :=
  ⟨[⟨1, "a", "bot-a", none, true, some 1, 0, 1, none, none, none, some "ha"⟩,
    ⟨2, "b", "bot-a", none, false, none, 0, 0, none, none, none, some "hb"⟩,
    ⟨3, "c", "bot-a", none, false, none, 0, 0, none, none, none, some "hc"⟩], [],
   [⟨"bot-a", 3, 1, 2, some 1, none, 0, 0, 0, 1⟩], 4, 1⟩

/-- A 10-item batch, 3 of whose items repeat stored fingerprints. -/
def c4Batch : List PostGenerationResult :=
  [⟨"a", none, 50, 0, "m"⟩, ⟨"b", none, 50, 0, "m"⟩, ⟨"c", none, 50, 0, "m"⟩,
   ⟨"d", none, 50, 0, "m"⟩, ⟨"e", none, 50, 0, "m"⟩, ⟨"f", none, 50, 0, "m"⟩,
   ⟨"g", none, 50, 0, "m"⟩, ⟨"p", none, 50, 0, "m"⟩, ⟨"q", none, 50, 0, "m"⟩,
   ⟨"r", none, 50, 0, "m"⟩]

/-- C4 witness: the theorem applied to the 10-item batch with 3 duplicate
fingerprints, plus the concrete counts `inserted = 7, skipped = 3` and the
total rising from 3 to 10. -/
theorem c4_batchInsertDedup_witness :
    (∀ r ∈ c4DB.posts, r.bot_id = "bot-a") ∧
    BatchInsertOutcome c4Hash "bot-a" 9 c4DB c4Batch ∧
    c4Batch.length = 10 ∧
    storeCounts (storePostsGo c4Hash "bot-a" 9 c4Batch c4DB 0 0) = some (7, 3) ∧
    storeTotal "bot-a" (storePostsGo c4Hash "bot-a" 9 c4Batch c4DB 0 0) = some 10 ∧
    (getPostCount "bot-a" c4DB).total = 3 :=
  ⟨by decide, c4_batchInsertDedup c4Hash "bot-a" 9 c4DB c4Batch (by decide),
   by decide, by decide, by decide, by decide⟩

/-! ### Claim C10: deterministic generation and idempotent replenishment -/

/-- Each topic batch has exactly the requested number of posts. -/
theorem generateTopicPostsOk_length (t : String) (n : Nat) :
    (generateTopicPostsOk t n).length = n := by
  simp [generateTopicPostsOk]

/-- `generateAllPosts` has exactly 32 × 63 = 2016 posts. -/
theorem generateAllPosts_length : generateAllPosts.length = 2016 := by
  rw [generateAllPosts, List.length_flatten, List.map_map]
  have h1 : templateTopicKeys.map (List.length ∘ fun t => generateTopicPostsOk t 63) =
      templateTopicKeys.map (fun _ => 63) :=
    List.map_congr_left (fun t _ => by simp [generateTopicPostsOk])
  have h2 : ∀ l : List String, (l.map (fun _ => (63 : Nat))).sum = 63 * l.length := by
    intro l
    induction l with
    | nil => simp
    | cons x xs ih => simp [ih]; ring
  rw [h1, h2]
  have h3 : templateTopicKeys.length = 32 := by decide
  rw [h3]

/-- C10: `generateAllPosts` is a fixed value of 2016 = 32 × 63 posts (the
generator consumes no randomness, so every call yields this same list),
and replenishing a second time from any committed first run re-finds every
fingerprint and inserts zero rows, leaving the whole store unchanged —
both through the raw transaction loop and through `storePosts` with the
real content hash. -/
theorem c10_replenishIdempotent :
    generateAllPosts.length = 2016 ∧
    (∀ (hash : String → String) (botId : String) (now1 now2 : Nat)
       (db d : DB) (i s : Nat),
      storePostsGo hash botId now1 generateAllPosts db 0 0 = .ok (d, i, s) →
      storePostsGo hash botId now2 generateAllPosts d 0 0 = .ok (d, 0, 2016)) ∧
    (∀ (botId : String) (now1 now2 : Nat) (db d : DB),
      storePosts botId generateAllPosts now1 db = .ok d →
      storePosts botId generateAllPosts now2 d = .ok d) := by
  have hsecond : ∀ (hash : String → String) (botId : String) (now1 now2 : Nat)
      (db d : DB) (i s : Nat),
      storePostsGo hash botId now1 generateAllPosts db 0 0 = .ok (d, i, s) →
      storePostsGo hash botId now2 generateAllPosts d 0 0 = .ok (d, 0, 2016) := by
    intro hash botId now1 now2 db d i s heq
    obtain ⟨-, -, -, -, hpres⟩ :=
      storePostsGo_ok_shape hash botId now1 generateAllPosts db 0 0 d i s heq
    have hall := storePostsGo_allPresent hash botId now2 generateAllPosts d 0 0 hpres
    rw [generateAllPosts_length] at hall
    simpa using hall
  refine ⟨generateAllPosts_length, hsecond, ?_⟩
  intro botId now1 now2 db d hfirst
  rw [storePosts] at hfirst
  cases hgo : storePostsGo generateContentHash botId now1 generateAllPosts db 0 0 with
  | error e => rw [hgo] at hfirst; simp at hfirst
  | ok v =>
      rw [hgo] at hfirst
      obtain ⟨d0, i, s⟩ := v
      simp only [Except.ok.injEq] at hfirst
      subst hfirst
      rw [storePosts, hsecond generateContentHash botId now1 now2 db d0 i s hgo]

/-- An empty store for the C10 witness. -/
def c10EmptyDB : DB := ⟨[], [], [], 1, 1⟩

/-- C10 witness: a committed first replenishment run on the empty store
(obtained from the no-abort lemma), after which the theorem gives that the
second run inserts 0 rows and skips all 2016. -/
theorem c10_replenishIdempotent_witness :
    ∃ d i s, storePostsGo (fun _ => "k") "bot-a" 0 generateAllPosts c10EmptyDB 0 0 =
        .ok (d, i, s) ∧
      storePostsGo (fun _ => "k") "bot-a" 7 generateAllPosts d 0 0 = .ok (d, 0, 2016) := by
  obtain ⟨d, a, b, heq, -⟩ := storePostsGo_ok (fun _ => "k") "bot-a" 0 generateAllPosts
    c10EmptyDB 0 0 (by intro r hr; simp [c10EmptyDB] at hr)
  exact ⟨d, 0 + a, 0 + b, heq,
    c10_replenishIdempotent.2.1 (fun _ => "k") "bot-a" 0 7 c10EmptyDB d (0 + a) (0 + b) heq⟩

/-! ### Retry loop and replenishment shape lemmas -/

/-- The `post_logs` row recorded for a failed publish attempt. -/
def mkFailLog (botId : String) (now idx att : Nat) (msg : String) : LogRow :=
  ⟨idx, botId, none, att, false, none, some msg, none, now⟩

/-- With a client that fails every attempt, the retry loop runs its
remaining `fuel` attempts, appends one failure log per attempt (carrying
the attempt number), sleeps the flat delay between consecutive attempts
(`fuel - 1` sleeps), leaves posts and stats untouched, and returns the
last error. -/
theorem failLogs_cons (botId : String) (now nid attempt : Nat) (errf : Nat → String)
    (g : Nat) :
    mkFailLog botId now nid attempt (errf attempt) ::
      (List.range (g + 1)).map (fun k => mkFailLog botId now (nid + 1 + k)
        (attempt + 1 + k) (errf (attempt + 1 + k))) =
    (List.range (g + 1 + 1)).map (fun k => mkFailLog botId now (nid + k)
      (attempt + k) (errf (attempt + k))) := by
  symm
  rw [List.range_succ_eq_map, List.map_cons, List.map_map]
  congr 1
  apply List.map_congr_left
  intro k _
  simp only [Function.comp, Nat.succ_eq_add_one]
  have h1 : nid + (k + 1) = nid + 1 + k := by omega
  have h2 : attempt + (k + 1) = attempt + 1 + k := by omega
  rw [h1, h2]

/-- With a client that fails every attempt, the retry loop runs its
remaining `fuel` attempts, appends one failure log per attempt (carrying
the attempt number), sleeps the flat delay between consecutive attempts
(`fuel - 1` sleeps), leaves posts and stats untouched, and returns the
last error. -/
theorem postWithRetryGo_allFail (client : String → Nat → Except String String)
    (rts : String → Nat → Nat) (maxRetries retryDelay : Nat) (botId : String)
    (now : Nat) (content : String) (errf : Nat → String)
    (hc : ∀ a, client content a = .error (errf a)) :
    ∀ (fuel attempt : Nat) (db : DB), 1 ≤ fuel → attempt + fuel = maxRetries + 1 →
    postWithRetryGo client rts maxRetries retryDelay botId now content attempt fuel db =
      ({ db with
          postLogs := db.postLogs ++ (List.range fuel).map
            (fun k => mkFailLog botId now (db.nextLogId + k) (attempt + k)
              (errf (attempt + k))),
          nextLogId := db.nextLogId + fuel },
       ⟨false, none, some (errf maxRetries)⟩,
       List.replicate (fuel - 1) retryDelay) := by
  intro fuel
  induction fuel with
  | zero => intro attempt db h1; omega
  | succ f ihf =>
      intro attempt db _ hsum
      rw [postWithRetryGo, hc attempt]
      dsimp only
      by_cases hat : (attempt == maxRetries) = true
      · rw [if_pos hat]
        rw [beq_iff_eq] at hat
        have hf0 : f = 0 := by omega
        subst hf0
        subst hat
        simp [insertLog, mkFailLog, List.range_succ]
      · rw [if_neg hat]
        rw [beq_iff_eq] at hat
        have hf1 : 1 ≤ f := by omega
        obtain ⟨g, rfl⟩ : ∃ g, f = g + 1 := ⟨f - 1, by omega⟩
        have hrec := ihf (attempt + 1)
          (insertLog db
            { id := db.nextLogId, bot_id := botId, post_id := none,
              attempt_number := attempt, success := false, tweet_id := none,
              error_message := some (errf attempt), response_time_ms := none,
              created_at := now }) hf1 (by omega)
        rw [hrec]
        simp only [insertLog]
        rw [List.append_assoc, List.singleton_append]
        have hrow : (⟨db.nextLogId, botId, none, attempt, false, none,
            some (errf attempt), none, now⟩ : LogRow) =
            mkFailLog botId now db.nextLogId attempt (errf attempt) := rfl
        rw [hrow, failLogs_cons]
        have hn : db.nextLogId + 1 + (g + 1) = db.nextLogId + (g + 1 + 1) := by omega
        rw [hn]
        simp [List.replicate_succ]

/-- A failing retry loop started at attempt 1 with `maxRetries ≥ 1`. -/
theorem postWithRetry_allFail (client : String → Nat → Except String String)
    (rts : String → Nat → Nat) (maxRetries retryDelay : Nat) (botId : String)
    (now : Nat) (content : String) (errf : Nat → String) (db : DB)
    (hm : 1 ≤ maxRetries) (hc : ∀ a, client content a = .error (errf a)) :
    postWithRetry client rts maxRetries retryDelay botId now content db =
      ({ db with
          postLogs := db.postLogs ++ (List.range maxRetries).map
            (fun k => mkFailLog botId now (db.nextLogId + k) (1 + k) (errf (1 + k))),
          nextLogId := db.nextLogId + maxRetries },
       ⟨false, none, some (errf maxRetries)⟩,
       List.replicate (maxRetries - 1) retryDelay) := by
  rw [postWithRetry]
  exact postWithRetryGo_allFail client rts maxRetries retryDelay botId now content errf
    hc maxRetries 1 db hm (by omega)

/-- A committed `generatePosts` run appends only fresh unused rows, leaves
the attempt log alone, and bumps the bot's stats row by the full generated
batch length 2016. -/
theorem generatePosts_shape (botId : String) (now : Nat) (db db' : DB)
    (h : generatePosts botId now db = .ok db') :
    (∃ rows, db'.posts = db.posts ++ rows ∧ ∀ r ∈ rows, r.used = false) ∧
    db'.postLogs = db.postLogs ∧
    db'.botStats = db.botStats.map (fun s =>
      if s.bot_id == botId then
        { s with total_posts := s.total_posts + (2016 : Int),
                 remaining_posts := s.remaining_posts + (2016 : Int),
                 last_replenishment_at := some now, updated_at := now }
      else s) := by
  rw [generatePosts] at h
  cases hst : storePosts botId generateAllPosts now db with
  | error e =>
      rw [hst] at h
      simp at h
  | ok d =>
      rw [hst] at h
      simp only [Except.ok.injEq] at h
      rw [storePosts] at hst
      cases hgo : storePostsGo generateContentHash botId now generateAllPosts db 0 0 with
      | error e => rw [hgo] at hst; simp at hst
      | ok v =>
          rw [hgo] at hst
          obtain ⟨d0, i, s⟩ := v
          simp only [Except.ok.injEq] at hst
          subst hst
          obtain ⟨⟨rows, hrows, hrprop⟩, hlogs, hstats, -, -⟩ :=
            storePostsGo_ok_shape generateContentHash botId now generateAllPosts db 0 0
              d0 i s hgo
          subst h
          refine ⟨⟨rows, by simpa [bumpStatsAfterGen] using hrows,
            fun r hr => (hrprop r hr).2.1⟩, by simpa [bumpStatsAfterGen] using hlogs, ?_⟩
          simp only [bumpStatsAfterGen, hstats, generateAllPosts_length]
          norm_cast

/-- The post-cycle check leaves existing rows and the attempt log alone:
whatever it decides, the resulting store is the input store plus possibly
a batch of fresh unused rows. -/
theorem checkAndGeneratePosts_shape (botId : String) (threshold now : Nat) (db : DB) :
    ∃ rows, (checkAndGeneratePosts botId threshold now db).1.posts = db.posts ++ rows ∧
      (∀ r ∈ rows, r.used = false) ∧
      (checkAndGeneratePosts botId threshold now db).1.postLogs = db.postLogs := by
  rw [checkAndGeneratePosts]
  dsimp only
  by_cases htrig : decide ((getPostCount botId db).remaining ≤ threshold) = true
  · rw [if_pos htrig]
    cases hgen : generatePosts botId now db with
    | error e => exact ⟨[], by simp⟩
    | ok d =>
        obtain ⟨⟨rows, hrows, hrprop⟩, hlogs, -⟩ := generatePosts_shape botId now db d hgen
        exact ⟨rows, hrows, hrprop, hlogs⟩
  · rw [if_neg htrig]
    exact ⟨[], by simp⟩

/-- The post-cycle check triggers exactly when the recomputed remaining
count is at or below the threshold. -/
theorem checkAndGeneratePosts_snd (botId : String) (threshold now : Nat) (db : DB) :
    (checkAndGeneratePosts botId threshold now db).2 =
      decide ((getPostCount botId db).remaining ≤ threshold) := rfl

/-! ### Claim C6: exhausted retries -/

/-- The C6 contract under an always-failing publish client: the retry loop
records exactly `maxRetries` failure rows each carrying its attempt
number, sleeps the flat delay `maxRetries - 1` times (no backoff), and the
full cycle commits no `markPostAsUsed` — every pre-existing row survives
unchanged (the cycle at most appends fresh unused rows) and no further log
rows appear. -/
def RetryExhaustionOutcome (client : String → Nat → Except String String)
    (rts : String → Nat → Nat) (maxRetries retryDelay threshold : Nat)
    (botId : String) (now : Nat) (db : DB) (post : PostRow)
    (errf : Nat → String) : Prop :=
  postWithRetry client rts maxRetries retryDelay botId now post.content db =
    ({ db with
        postLogs := db.postLogs ++ (List.range maxRetries).map
          (fun k => mkFailLog botId now (db.nextLogId + k) (1 + k) (errf (1 + k))),
        nextLogId := db.nextLogId + maxRetries },
     ⟨false, none, some (errf maxRetries)⟩,
     List.replicate (maxRetries - 1) retryDelay) ∧
  ∃ dF rep, executePost client rts maxRetries retryDelay threshold botId now db =
      .ok (dF, rep) ∧
    rep.result = some ⟨false, none, some (errf maxRetries)⟩ ∧
    rep.sleeps = List.replicate (maxRetries - 1) retryDelay ∧
    (∃ newRows, dF.posts = db.posts ++ newRows ∧ ∀ r ∈ newRows, r.used = false) ∧
    dF.postLogs = db.postLogs ++ (List.range maxRetries).map
      (fun k => mkFailLog botId now (db.nextLogId + k) (1 + k) (errf (1 + k)))

/-- C6: when every publish attempt fails, the loop performs exactly
`maxRetries` attempts with one failure log row per attempt (attempt
numbers `1..maxRetries`), a flat `retryDelay` sleep between consecutive
attempts, and the fetched post is never marked used. -/
theorem c6_retryExhaustion (client : String → Nat → Except String String)
    (rts : String → Nat → Nat) (maxRetries retryDelay threshold : Nat)
    (botId : String) (now : Nat) (db : DB) (post : PostRow) (errf : Nat → String)
    (hm : 1 ≤ maxRetries)
    (hc : ∀ a, client post.content a = .error (errf a))
    (hnext : getNextPost botId db = some post) :
    RetryExhaustionOutcome client rts maxRetries retryDelay threshold botId now
      db post errf := by
  have hpwr := postWithRetry_allFail client rts maxRetries retryDelay botId now
    post.content errf db hm hc
  refine ⟨hpwr, ?_⟩
  rw [executePost, hnext]
  dsimp only
  rw [hpwr]
  dsimp only
  simp only [Bool.false_eq_true, if_false]
  obtain ⟨rows, hrw, hrp, hlg⟩ := checkAndGeneratePosts_shape botId threshold now
    ({ db with
        postLogs := db.postLogs ++ (List.range maxRetries).map
          (fun k => mkFailLog botId now (db.nextLogId + k) (1 + k) (errf (1 + k))),
        nextLogId := db.nextLogId + maxRetries })
  exact ⟨_, _, rfl, rfl, rfl, ⟨rows, hrw, hrp⟩, hlg⟩

/-- A one-unused-post store for the C6 witness. -/
def c6DB : DB :=
  ⟨[⟨1, "hello world", "bot-a", none, false, none, 0, 0, none, none, none, none⟩], [],
   [⟨"bot-a", 1, 0, 1, none, none, 0, 0, 0, 0⟩], 2, 1⟩

/-- C6 witness: a client failing every attempt with a fixed message, three
retries, the fetched post being row 1. -/
theorem c6_retryExhaustion_witness :
    (1 ≤ 3) ∧
    (∀ a : Nat, (fun (_ : String) (_ : Nat) =>
      (.error "rate limited" : Except String String)) "hello world" a =
        .error ((fun _ => "rate limited") a)) ∧
    getNextPost "bot-a" c6DB =
      some ⟨1, "hello world", "bot-a", none, false, none, 0, 0, none, none, none, none⟩ ∧
    RetryExhaustionOutcome (fun _ _ => .error "rate limited") (fun _ _ => 12) 3 5000 50
      "bot-a" 42 c6DB ⟨1, "hello world", "bot-a", none, false, none, 0, 0, none, none,
        none, none⟩ (fun _ => "rate limited") :=
  ⟨by decide, fun a => rfl, by decide,
   c6_retryExhaustion (fun _ _ => .error "rate limited") (fun _ _ => 12) 3 5000 50
     "bot-a" 42 c6DB ⟨1, "hello world", "bot-a", none, false, none, 0, 0, none, none,
       none, none⟩ (fun _ => "rate limited") (by decide) (fun a => rfl) (by decide)⟩

/-! ### Counting lemmas for the post-cycle threshold check -/

/-- `selectOldest` only returns members of its input. -/
theorem selectOldest_mem : ∀ (l : List PostRow) (r : PostRow),
    selectOldest l = some r → r ∈ l := by
  intro l
  induction l with
  | nil => intro r hr; simp [selectOldest] at hr
  | cons x xs ih =>
      intro r hr
      rw [selectOldest] at hr
      cases hsel : selectOldest xs with
      | none =>
          rw [hsel] at hr
          dsimp only at hr
          rw [Option.some.injEq] at hr
          exact hr ▸ List.mem_cons_self _ _
      | some b =>
          rw [hsel] at hr
          dsimp only at hr
          by_cases hlt : b.created_at < x.created_at
          · rw [if_pos hlt, Option.some.injEq] at hr
            exact hr ▸ List.mem_cons_of_mem _ (ih b hsel)
          · rw [if_neg hlt, Option.some.injEq] at hr
            exact hr ▸ List.mem_cons_self _ _

/-- The fetched post is an unused row of the bot. -/
theorem getNextPost_mem (botId : String) (db : DB) (post : PostRow)
    (h : getNextPost botId db = some post) :
    post ∈ db.posts ∧ post.bot_id = botId ∧ post.used = false := by
  rw [getNextPost] at h
  have hmem := selectOldest_mem _ _ h
  rw [List.mem_filter, Bool.and_eq_true, beq_iff_eq, beq_iff_eq] at hmem
  exact ⟨hmem.1, hmem.2.1, hmem.2.2⟩

/-- The row update of `markPostAsUsed`. -/
def markFn (botId : String) (pid t : Nat) : PostRow → PostRow := fun r =>
  if r.id == pid && r.bot_id == botId then
    { r with used := true, used_at := some t, updated_at := t }
  else r

/-- `markPostAsUsed` leaves the bot's total row count unchanged. -/
theorem countBot_map_markFn (botId : String) (pid t : Nat) (l : List PostRow) :
    (l.map (markFn botId pid t)).countP (fun r => r.bot_id == botId) =
      l.countP (fun r => r.bot_id == botId) := by
  rw [List.countP_map]
  apply List.countP_congr
  intro r _
  rw [Function.comp, markFn]
  by_cases hm : (r.id == pid && r.bot_id == botId) = true
  · rw [if_pos hm]
  · rw [if_neg hm]

/-- `markPostAsUsed` raises the bot's used count by exactly the number of
rows that matched while still unused. -/
theorem countUsed_map_markFn (botId : String) (pid t : Nat) : ∀ l : List PostRow,
    (l.map (markFn botId pid t)).countP
        (fun r => r.bot_id == botId && r.used == true) =
      l.countP (fun r => r.bot_id == botId && r.used == true) +
        l.countP (fun r => r.id == pid && r.bot_id == botId && r.used == false) := by
  intro l
  induction l with
  | nil => simp
  | cons r l ih =>
      simp only [List.map_cons, List.countP_cons, ih, markFn]
      by_cases hm : (r.id == pid && r.bot_id == botId) = true
      · rw [if_pos hm]
        have hbot : (r.bot_id == botId) = true := by
          rw [Bool.and_eq_true] at hm; exact hm.2
        have hid : (r.id == pid) = true := by
          rw [Bool.and_eq_true] at hm; exact hm.1
        cases hu : r.used with
        | false => simp [hbot, hid, hu]; omega
        | true => simp [hbot, hid, hu]; omega
      · have hm0 : (r.id == pid && r.bot_id == botId) = false := by
          cases hxx : (r.id == pid && r.bot_id == botId) with
          | false => rfl
          | true => exact absurd hxx hm
        rw [if_neg hm]
        simp [hm0]; omega

/-- On a store with strictly increasing ids, exactly one row matches an
unused member's id, bot and unused flag. -/
theorem countFired_eq_one (botId : String) (post : PostRow) : ∀ l : List PostRow,
    l.Pairwise (fun a b => a.id < b.id) → post ∈ l → post.bot_id = botId →
    post.used = false →
    l.countP (fun r => r.id == post.id && r.bot_id == botId && r.used == false) = 1 := by
  intro l
  induction l with
  | nil => intro _ hmem; simp at hmem
  | cons x xs ih =>
      intro hp hmem hbot hunused
      rw [List.pairwise_cons] at hp
      rw [List.countP_cons]
      rcases List.mem_cons.mp hmem with rfl | hmem'
      · have hx : (post.id == post.id && post.bot_id == botId && post.used == false) = true := by
          rw [Bool.and_eq_true, Bool.and_eq_true, beq_iff_eq, beq_iff_eq, beq_iff_eq]
          exact ⟨⟨rfl, hbot⟩, hunused⟩
        rw [hx]
        have hz : xs.countP (fun r => r.id == post.id && r.bot_id == botId &&
            r.used == false) = 0 := by
          rw [List.countP_eq_zero]
          intro r hr hcond
          rw [Bool.and_eq_true, Bool.and_eq_true, beq_iff_eq] at hcond
          obtain ⟨⟨h1, -⟩, -⟩ := hcond
          have := hp.1 r hr
          omega
        rw [hz]
        simp
      · have hxne : (x.id == post.id && x.bot_id == botId && x.used == false) = false := by
          have hlt := hp.1 post hmem'
          cases hxx : (x.id == post.id && x.bot_id == botId && x.used == false) with
          | false => rfl
          | true =>
              rw [Bool.and_eq_true, Bool.and_eq_true, beq_iff_eq] at hxx
              obtain ⟨⟨h1, -⟩, -⟩ := hxx
              omega
        rw [hxne]
        rw [ih hp.2 hmem' hbot hunused]
        simp

/-- `markPostAsUsed` maps `markFn` over the rows. -/
theorem markPostAsUsed_posts (botId : String) (pid now : Nat) (db : DB) :
    (markPostAsUsed botId pid now db).posts = db.posts.map (markFn botId pid now) := rfl

/-- When the publish client succeeds on the first attempt, the retry loop
records a single success log (with the schema-default attempt number 1,
the tweet id and the response time) and reports success. -/
theorem postWithRetry_firstOk (client : String → Nat → Except String String)
    (rts : String → Nat → Nat) (maxRetries retryDelay : Nat) (botId : String)
    (now : Nat) (content : String) (db : DB) (tid : String)
    (hm : 1 ≤ maxRetries) (hc1 : client content 1 = .ok tid) :
    postWithRetry client rts maxRetries retryDelay botId now content db =
      (insertLog db ⟨db.nextLogId, botId, none, 1, true, some tid, none,
        some (rts content 1), now⟩,
       ⟨true, some tid, none⟩, []) := by
  rw [postWithRetry]
  obtain ⟨g, rfl⟩ : ∃ g, maxRetries = g + 1 := ⟨maxRetries - 1, by omega⟩
  rw [postWithRetryGo, hc1]

/-! ### Claim C3: the replenishment threshold boundary -/

/-- The C3 boundary result: after a publish cycle whose client succeeds on
attempt 1, the post-cycle check triggers replenishment exactly when the
bot's remaining count before the cycle was at most 51 (it drops by one
during the cycle and is then compared with the threshold 50). -/
def ThresholdOutcome (client : String → Nat → Except String String)
    (rts : String → Nat → Nat) (maxRetries retryDelay : Nat) (botId : String)
    (now : Nat) (db : DB) : Prop :=
  ∃ dF rep, executePost client rts maxRetries retryDelay 50 botId now db =
      .ok (dF, rep) ∧
    (rep.postCycleTriggered = true ↔ (getPostCount botId db).remaining ≤ 51) ∧
    1 ≤ (getPostCount botId db).remaining

/-- C3 (amended): with threshold 50 and a client succeeding on the first
attempt, the cycle triggers replenishment iff the pre-cycle remaining
count is ≤ 51 — so 50 remaining before the cycle triggers, and so does 51;
only 52 or more remaining posts before the cycle avoid the trigger. -/
theorem c3_postCycleThreshold (client : String → Nat → Except String String)
    (rts : String → Nat → Nat) (maxRetries retryDelay : Nat) (botId : String)
    (now : Nat) (db : DB) (post : PostRow) (tid : String)
    (hp : db.posts.Pairwise (fun a b => a.id < b.id))
    (hm : 1 ≤ maxRetries)
    (hnext : getNextPost botId db = some post)
    (hc1 : client post.content 1 = .ok tid) :
    ThresholdOutcome client rts maxRetries retryDelay botId now db := by
  obtain ⟨hmem, hbot, hunused⟩ := getNextPost_mem botId db post hnext
  have hpwr := postWithRetry_firstOk client rts maxRetries retryDelay botId now
    post.content db tid hm hc1
  rw [ThresholdOutcome, executePost, hnext]
  dsimp only
  rw [hpwr]
  dsimp only
  simp only [if_true]
  have hposts2 : (markPostAsUsed botId post.id now
      (insertLog db ⟨db.nextLogId, botId, none, 1, true, some tid, none,
        some (rts post.content 1), now⟩)).posts =
      db.posts.map (markFn botId post.id now) := markPostAsUsed_posts _ _ _ _
  refine ⟨_, _, rfl, ?_, ?_⟩
  · show (checkAndGeneratePosts botId 50 now _).2 = true ↔ _
    rw [checkAndGeneratePosts_snd, decide_eq_true_eq]
    simp only [getPostCount, hposts2, countBot_map_markFn, countUsed_map_markFn,
      countFired_eq_one botId post db.posts hp hmem hbot hunused]
    omega
  · have hle : (db.posts.map (markFn botId post.id now)).countP
        (fun r => r.bot_id == botId && r.used == true) ≤
        (db.posts.map (markFn botId post.id now)).countP
          (fun r => r.bot_id == botId) := by
      apply List.countP_mono_left
      intro r _ hcond
      rw [Bool.and_eq_true] at hcond
      exact hcond.1
    rw [countBot_map_markFn, countUsed_map_markFn,
      countFired_eq_one botId post db.posts hp hmem hbot hunused] at hle
    simp only [getPostCount]
    omega

/-- A row of the 51-post counterexample store. -/
def c3Row (i : Nat) : PostRow :=
  ⟨i + 1, "content", "bot-a", none, false, none, i, i, none, none, none, none⟩

/-- A store with 51 unused posts for `bot-a`. -/
def c3DB : DB :=
  ⟨(List.range 51).map c3Row, [], [⟨"bot-a", 51, 0, 51, none, none, 0, 0, 0, 0⟩], 52, 1⟩

/-- Whether a finished cycle triggered the post-cycle replenishment. -/
def cycleTriggered : Except String (DB × CycleReport) → Bool
  | .ok (_, rep) => rep.postCycleTriggered
  | .error _ => false

/-- C3 counterexample: a bot with exactly 51 remaining posts before a
successful cycle ends the cycle with 50 remaining, and `50 <= 50` does
trigger replenishment — the claim says it should not. -/
theorem c3_cx_51Triggers :
    (getPostCount "bot-a" c3DB).remaining = 51 ∧
    cycleTriggered (executePost (fun _ _ => .ok "t1") (fun _ _ => 5) 3 5000 50
      "bot-a" 99 c3DB) = true :=
  ⟨by decide, by decide⟩

/-- A one-post store for the C3 witness. -/
def c3SmallDB : DB :=
  ⟨[⟨1, "hello", "bot-a", none, false, none, 0, 0, none, none, none, none⟩], [],
   [⟨"bot-a", 1, 0, 1, none, none, 0, 0, 0, 0⟩], 2, 1⟩

/-- C3 witness: the amended theorem applied to a concrete one-post store
with a first-attempt-success client. -/
theorem c3_postCycleThreshold_witness :
    (c3SmallDB.posts.Pairwise (fun a b => a.id < b.id)) ∧ (1 ≤ 3) ∧
    getNextPost "bot-a" c3SmallDB =
      some ⟨1, "hello", "bot-a", none, false, none, 0, 0, none, none, none, none⟩ ∧
    ThresholdOutcome (fun _ _ => .ok "t9") (fun _ _ => 4) 3 5000 "bot-a" 11 c3SmallDB :=
  ⟨by decide, by decide, by decide,
   c3_postCycleThreshold (fun _ _ => .ok "t9") (fun _ _ => 4) 3 5000 "bot-a" 11
     c3SmallDB ⟨1, "hello", "bot-a", none, false, none, 0, 0, none, none, none, none⟩
     "t9" (by decide) (by decide) (by decide) rfl⟩

/-! ### Claim C1: the end-to-end scenario -/

/-- The single seeded post of the C1 scenario. -/
def c1SeedRow : PostRow :=
  ⟨1, "Test post one.", "bot-a", none, false, none, 0, 0, none, none, none,
   some (generateContentHash "Test post one.")⟩

/-- The C1 store: one unused post and a consistent `bot_stats` row. -/
def c1SeedDB : DB := ⟨[c1SeedRow], [], [⟨"bot-a", 1, 0, 1, none, none, 0, 0, 0, 0⟩], 2, 1⟩

/-- The C1 publish-client stub: always succeeds with `ext-123`. -/
def c1Client : String → Nat → Except String String := fun _ _ => .ok "ext-123"

/-- The store right after the post mutation of the C1 cycle (success log
recorded, post marked used, trigger fired). -/
def c1Mid : DB :=
  markPostAsUsed "bot-a" 1 5
    (postWithRetry c1Client (fun _ _ => 12) 3 5000 "bot-a" 5 "Test post one." c1SeedDB).1

/-- The seeded row as it looks after being marked used at time 5. -/
def c1MidRow : PostRow :=
  { c1SeedRow with used := true, used_at := some 5, updated_at := 5 }

/-- The `bot_stats` update the replenishment step applies. -/
def c1Bump : StatsRow → StatsRow := fun s =>
  if s.bot_id == "bot-a" then
    { s with total_posts := s.total_posts + (2016 : Int),
             remaining_posts := s.remaining_posts + (2016 : Int),
             last_replenishment_at := some 5, updated_at := 5 }
  else s

/-- The full C1 cycle: the fetched post publishes on attempt 1, is marked
used, and the post-cycle check (0 remaining ≤ 50) replenishes
synchronously, appending only fresh unused rows and bumping the stats by
2016. -/
theorem c1_cycleShape :
    ∃ dF rep rows,
      executePost c1Client (fun _ _ => 12) 3 5000 50 "bot-a" 5 c1SeedDB = .ok (dF, rep) ∧
      dF.posts = c1MidRow :: rows ∧ (∀ r ∈ rows, r.used = false) ∧
      dF.postLogs = c1Mid.postLogs ∧
      dF.botStats = c1Mid.botStats.map c1Bump := by
  have hexe : executePost c1Client (fun _ _ => 12) 3 5000 50 "bot-a" 5 c1SeedDB =
      .ok ((checkAndGeneratePosts "bot-a" 50 5 c1Mid).1,
           ⟨some 1, some ⟨true, some "ext-123", none⟩, [],
            (checkAndGeneratePosts "bot-a" 50 5 c1Mid).2⟩) := rfl
  have hsb : ∀ r ∈ c1Mid.posts, r.bot_id = "bot-a" := by decide
  obtain ⟨d, a, b, hgo, -, ⟨rows, hrows, -, hrprop⟩, hlogs, hstats, -, -⟩ :=
    storePostsGo_ok generateContentHash "bot-a" 5 generateAllPosts c1Mid 0 0 hsb
  have hgen : generatePosts "bot-a" 5 c1Mid =
      .ok (bumpStatsAfterGen "bot-a" generateAllPosts.length 5 d) := by
    rw [generatePosts, storePosts, hgo]
  have htrig : decide ((getPostCount "bot-a" c1Mid).remaining ≤ 50) = true := by decide
  have hcheck : (checkAndGeneratePosts "bot-a" 50 5 c1Mid).1 =
      bumpStatsAfterGen "bot-a" generateAllPosts.length 5 d := by
    rw [checkAndGeneratePosts]
    dsimp only
    rw [htrig]
    simp only [if_true]
    rw [hgen]
  have hmid : c1Mid.posts = [c1MidRow] := rfl
  refine ⟨_, _, rows, hexe, ?_, fun r hr => (hrprop r hr).2.1, ?_, ?_⟩
  · rw [hcheck]
    show d.posts = c1MidRow :: rows
    rw [hrows, hmid]
    rfl
  · rw [hcheck]
    show d.postLogs = c1Mid.postLogs
    exact hlogs
  · rw [hcheck]
    show d.botStats.map _ = c1Mid.botStats.map c1Bump
    rw [hstats, generateAllPosts_length]
    rfl

/-- C1 counterexample: the claimed end state `remainingPosts = 0` does not
survive the full publish cycle — the post-cycle check sees 0 remaining,
replenishes synchronously, and the cycle ends with `remaining_posts =
2016`. -/
theorem c1_cx_remainingAfterCycle :
    ∃ dF rep,
      executePost c1Client (fun _ _ => 12) 3 5000 50 "bot-a" 5 c1SeedDB = .ok (dF, rep) ∧
      dF.botStats.map (fun s => s.remaining_posts) = [2016] ∧
      dF.botStats.map (fun s => s.remaining_posts) ≠ [0] := by
  obtain ⟨dF, rep, rows, hexe, -, -, -, hstats⟩ := c1_cycleShape
  refine ⟨dF, rep, hexe, ?_, ?_⟩
  · rw [hstats]
    decide
  · rw [hstats]
    decide

/-- C1 (amended): right after the post mutation the scenario's assertions
all hold — post `used = true` with `used_at` set, exactly one `post_logs`
row with `success = true`, `tweet_id = "ext-123"` and (via the schema
default) `attempt_number = 1`, and the trigger-updated stats row shows
`used_posts = 1, remaining_posts = 0`.  The cycle then replenishes
synchronously (0 remaining ≤ threshold 50), so at cycle end the same post
and log assertions hold but `remaining_posts = 2016`. -/
theorem c1_endToEndScenario :
    c1Mid.posts.map (fun r => (r.used, r.used_at)) = [(true, some 5)] ∧
    c1Mid.postLogs.map (fun l => (l.success, l.tweet_id, l.attempt_number)) =
      [(true, some "ext-123", 1)] ∧
    c1Mid.botStats.map (fun s => (s.used_posts, s.remaining_posts)) = [(1, 0)] ∧
    ∃ dF rep,
      executePost c1Client (fun _ _ => 12) 3 5000 50 "bot-a" 5 c1SeedDB = .ok (dF, rep) ∧
      (∃ r0 rest, dF.posts = r0 :: rest ∧ r0.id = 1 ∧ r0.used = true ∧
        r0.used_at = some 5 ∧ ∀ r ∈ rest, r.used = false) ∧
      dF.postLogs.map (fun l => (l.success, l.tweet_id, l.attempt_number)) =
        [(true, some "ext-123", 1)] ∧
      dF.botStats.map (fun s => (s.used_posts, s.remaining_posts)) = [(1, 2016)] := by
  obtain ⟨dF, rep, rows, hexe, hposts, hrprop, hlogs, hstats⟩ := c1_cycleShape
  refine ⟨by decide, by decide, by decide, dF, rep, hexe,
    ⟨c1MidRow, rows, hposts, rfl, rfl, rfl, hrprop⟩, ?_, ?_⟩
  · rw [hlogs]
    decide
  · rw [hstats]
    decide

end XBot
